import Mathlib

/-!
# Verification of `sys_info_tool.py` (SystemInfoTool)

A shallow embedding of the system-information tool: the byte-size formatter
`get_size`, the per-category collector functions, and the presenter (tab
slots, scan state machine, export).  Python numbers are modelled as `ℚ`; where the
source performs float division whose rounding is observable (`get_size`'s
repeated `bytes_val /= 1024`), the embedding applies `roundDouble`, an
exact model of IEEE-754 binary64 round-to-nearest ties-to-even, to the
quotient.  Fallible library calls and external commands are modelled as `Except String`-valued fields of an ambient
`HostState`, and `tkinter` text widgets as an association list from tab
name to current text content.
-/

namespace SysInfoTool

/-! ## Fixed-point number rendering

CPython's `f"{v:.Nf}"` rounds to `N` fractional digits (ties to even) and
prints the digits with no exponent.  `fmtFixed` reproduces that for the
non-negative rationals this program formats. -/

/-- Round to the nearest integer, ties to even (CPython float formatting). -/
def roundHalfEven (q : ℚ) : ℤ :=
  let f : ℤ := ⌊q⌋
  let r : ℚ := q - f
  if r < 1/2 then f
  else if 1/2 < r then f + 1
  else if 2 ∣ f then f else f + 1

/-- `prec` decimal digits of `fp`, most significant first, zero padded. -/
def padDigits (prec : ℕ) (fp : ℕ) : String :=
  String.mk ((List.range prec).map (fun i => Nat.digitChar (fp / 10 ^ (prec - 1 - i) % 10)))

/-- `f"{q:.precf}"` for `q ≥ 0`: integer part, a dot (when `prec > 0`), and
exactly `prec` fractional digits. -/
def fmtFixed (prec : ℕ) (q : ℚ) : String :=
  let n : ℤ := roundHalfEven (q * (10 : ℚ) ^ prec)
  let ip : ℤ := n / (10 : ℤ) ^ prec
  let fp : ℕ := (n % (10 : ℤ) ^ prec).toNat
  if prec = 0 then toString ip
  else toString ip ++ "." ++ padDigits prec fp

/-! ## The byte-size formatter `get_size`

```python
def get_size(bytes_val, suffix="B"):
    factor = 1024
    for unit in ["", "K", "M", "G", "T", "P"]:
        if bytes_val < factor:
            return f"{bytes_val:.2f}{unit}{suffix}"
        bytes_val /= factor
```

`bytes_val` starts as a Python `int`, but `bytes_val /= factor` rebinds it
to a `float`: the first quotient is rounded to IEEE-754 binary64.
`roundDouble` models that rounding exactly over `ℚ` (round to the nearest
multiple of the unit in the last place of the 53-bit significand, ties to
even); every later loop iteration divides an already representable double
by `1024`, which only lowers the exponent and stays exact
(`pyDiv1024_eq_div`).  When the loop exhausts the unit list Python falls
off the end of the function and returns `None`; the embedding returns
`Option`.  `get_size_val` is the loop, returning the value and unit at the
point of the `return` statement; `get_size` applies the `f"{...:.2f}"`
rendering. -/

/-- Round `q > 0` to the nearest IEEE-754 binary64 value (ties to even,
no overflow handling: the quantities here stay far below the largest
double): normalize to a significand in `[2^52, 2^53)`, round it to an
integer with `roundHalfEven`, and rescale. -/
def roundDouble (q : ℚ) : ℚ :=
  if q = 0 then 0
  else ((roundHalfEven (q / 2 ^ (Int.log 2 q - 52)) : ℤ) : ℚ) * 2 ^ (Int.log 2 q - 52)

/-- One loop iteration of `get_size`: CPython's `bytes_val /= 1024` on a
float (or on the initial int) is correctly rounded binary64 division. -/
def pyDiv1024 (v : ℚ) : ℚ := roundDouble (v / 1024)

/-- `v` is exactly representable as a binary64 with a full 53-bit
significand. -/
def DoubleRepr (v : ℚ) : Prop :=
  ∃ R s : ℤ, (2:ℤ) ^ 52 ≤ R ∧ R < 2 ^ 53 ∧ v = (R : ℚ) * 2 ^ s

lemma rhe_ge (q : ℚ) : q - 1/2 ≤ (roundHalfEven q : ℚ) := by
  show q - 1/2 ≤ ((if q - (⌊q⌋:ℚ) < 1/2 then ⌊q⌋
    else if 1/2 < q - (⌊q⌋:ℚ) then ⌊q⌋ + 1
    else if 2 ∣ ⌊q⌋ then ⌊q⌋ else ⌊q⌋ + 1 : ℤ) : ℚ)
  have h1 := Int.floor_le q
  have h2 := Int.lt_floor_add_one q
  split_ifs with a b c <;> push_cast <;> linarith

lemma rhe_le (q : ℚ) : (roundHalfEven q : ℚ) ≤ q + 1/2 := by
  show ((if q - (⌊q⌋:ℚ) < 1/2 then ⌊q⌋
    else if 1/2 < q - (⌊q⌋:ℚ) then ⌊q⌋ + 1
    else if 2 ∣ ⌊q⌋ then ⌊q⌋ else ⌊q⌋ + 1 : ℤ) : ℚ) ≤ q + 1/2
  have h1 := Int.floor_le q
  have h2 := Int.lt_floor_add_one q
  split_ifs with a b c <;> push_cast <;> linarith

lemma rhe_intCast (n : ℤ) : roundHalfEven (n : ℚ) = n := by
  unfold roundHalfEven
  simp

lemma cast2 : ((2:ℕ) : ℚ) = (2:ℚ) := by norm_cast

lemma log2_eq {q : ℚ} {e : ℤ} (h1 : (2:ℚ) ^ e ≤ q) (h2 : q < (2:ℚ) ^ (e + 1)) :
    Int.log 2 q = e := by
  have hq : 0 < q := lt_of_lt_of_le (zpow_pos (by norm_num) e) h1
  have hlz : Int.log 2 ((2:ℚ) ^ e) = e := by
    rw [← cast2]
    exact Int.log_zpow one_lt_two e
  have hle : e ≤ Int.log 2 q := by
    have hm := Int.log_mono_right (b := 2) (zpow_pos (by norm_num : (0:ℚ) < 2) e) h1
    rwa [hlz] at hm
  have hlt : Int.log 2 q < e + 1 := by
    refine (Int.lt_zpow_iff_log_lt (R := ℚ) one_lt_two hq).1 ?_
    rw [cast2]
    exact h2
  omega

lemma log2_bounds {q : ℚ} (hq : 0 < q) :
    (2:ℚ) ^ Int.log 2 q ≤ q ∧ q < (2:ℚ) ^ (Int.log 2 q + 1) := by
  constructor
  · have := Int.zpow_log_le_self (R := ℚ) (b := 2) one_lt_two hq
    rwa [cast2] at this
  · have := Int.lt_zpow_succ_log_self (R := ℚ) (b := 2) one_lt_two q
    rwa [cast2] at this

lemma x_bounds {q : ℚ} (hq : 0 < q) :
    (2:ℚ) ^ (52:ℤ) ≤ q / 2 ^ (Int.log 2 q - 52) ∧
    q / 2 ^ (Int.log 2 q - 52) < (2:ℚ) ^ (53:ℤ) := by
  obtain ⟨hl, hu⟩ := log2_bounds hq
  have hp : (0:ℚ) < 2 ^ (Int.log 2 q - 52) := zpow_pos (by norm_num) _
  constructor
  · rw [le_div_iff₀ hp, ← zpow_add₀ (by norm_num : (2:ℚ) ≠ 0)]
    convert hl using 2
    omega
  · rw [div_lt_iff₀ hp, ← zpow_add₀ (by norm_num : (2:ℚ) ≠ 0)]
    convert hu using 2
    omega

lemma roundDouble_eq {q : ℚ} (hq : 0 < q) :
    roundDouble q =
      ((roundHalfEven (q / 2 ^ (Int.log 2 q - 52)) : ℤ) : ℚ) * 2 ^ (Int.log 2 q - 52) := by
  rw [roundDouble, if_neg hq.ne']

lemma roundDouble_pos {q : ℚ} (hq : 0 < q) : 0 < roundDouble q := by
  rw [roundDouble_eq hq]
  have hx := (x_bounds hq).1
  have h := rhe_ge (q / 2 ^ (Int.log 2 q - 52))
  have hp : (0:ℚ) < 2 ^ (Int.log 2 q - 52) := zpow_pos (by norm_num) _
  have h52 : (2:ℚ) ^ (52:ℤ) = 4503599627370496 := by norm_num
  exact mul_pos (by linarith) hp

lemma roundDouble_le {q : ℚ} (hq : 0 < q) :
    roundDouble q ≤ q + 2 ^ (Int.log 2 q - 53) := by
  rw [roundDouble_eq hq]
  have h := rhe_le (q / 2 ^ (Int.log 2 q - 52))
  have hp : (0:ℚ) < 2 ^ (Int.log 2 q - 52) := zpow_pos (by norm_num) _
  have key : ((roundHalfEven (q / 2 ^ (Int.log 2 q - 52)) : ℤ) : ℚ) * 2 ^ (Int.log 2 q - 52)
      ≤ (q / 2 ^ (Int.log 2 q - 52) + 1/2) * 2 ^ (Int.log 2 q - 52) := by
    exact mul_le_mul_of_nonneg_right h hp.le
  refine key.trans ?_
  rw [add_mul, div_mul_cancel₀ _ hp.ne']
  have : (1/2 : ℚ) * 2 ^ (Int.log 2 q - 52) = 2 ^ (Int.log 2 q - 53) := by
    rw [show Int.log 2 q - 52 = (Int.log 2 q - 53) + 1 by omega,
      zpow_add₀ (by norm_num : (2:ℚ) ≠ 0)]
    ring
  linarith [this.le, this.ge]

lemma roundDouble_repr {q : ℚ} (hq : 0 < q) : DoubleRepr (roundDouble q) := by
  obtain ⟨hx1, hx2⟩ := x_bounds hq
  have hge := rhe_ge (q / 2 ^ (Int.log 2 q - 52))
  have hle := rhe_le (q / 2 ^ (Int.log 2 q - 52))
  have c52 : (2:ℚ) ^ (52:ℤ) = 4503599627370496 := by norm_num
  have c53 : (2:ℚ) ^ (53:ℤ) = 9007199254740992 := by norm_num
  have hRlow : (2:ℤ) ^ 52 ≤ roundHalfEven (q / 2 ^ (Int.log 2 q - 52)) := by
    have hcc : ((2 ^ 52 - 1 : ℤ) : ℚ) < (roundHalfEven (q / 2 ^ (Int.log 2 q - 52)) : ℚ) := by
      push_cast
      linarith
    have hcc2 : (2 ^ 52 - 1 : ℤ) < roundHalfEven (q / 2 ^ (Int.log 2 q - 52)) := by
      exact_mod_cast hcc
    omega
  have hRhi : roundHalfEven (q / 2 ^ (Int.log 2 q - 52)) ≤ 2 ^ 53 := by
    have hcc : (roundHalfEven (q / 2 ^ (Int.log 2 q - 52)) : ℚ) < ((2 ^ 53 + 1 : ℤ) : ℚ) := by
      push_cast
      linarith
    have hcc2 : roundHalfEven (q / 2 ^ (Int.log 2 q - 52)) < (2 ^ 53 + 1 : ℤ) := by
      exact_mod_cast hcc
    omega
  by_cases hR53 : roundHalfEven (q / 2 ^ (Int.log 2 q - 52)) < 2 ^ 53
  · exact ⟨_, _, hRlow, hR53, roundDouble_eq hq⟩
  · have hReq : roundHalfEven (q / 2 ^ (Int.log 2 q - 52)) = 2 ^ 53 :=
      le_antisymm hRhi (not_lt.1 hR53)
    refine ⟨2 ^ 52, Int.log 2 q - 52 + 1, le_refl _, by norm_num, ?_⟩
    rw [roundDouble_eq hq, hReq]
    push_cast
    rw [zpow_add₀ (by norm_num : (2:ℚ) ≠ 0), zpow_one]
    ring

lemma roundDouble_fix {R s : ℤ} (h1 : (2:ℤ) ^ 52 ≤ R) (h2 : R < 2 ^ 53) :
    roundDouble ((R : ℚ) * 2 ^ s) = (R : ℚ) * 2 ^ s := by
  have hRpos : (0:ℤ) < R := lt_of_lt_of_le (by norm_num) h1
  have hp : (0:ℚ) < 2 ^ s := zpow_pos (by norm_num) s
  have hv : 0 < (R : ℚ) * 2 ^ s := mul_pos (by exact_mod_cast hRpos) hp
  have hlog : Int.log 2 ((R : ℚ) * 2 ^ s) = 52 + s := by
    apply log2_eq
    · rw [zpow_add₀ (by norm_num : (2:ℚ) ≠ 0)]
      apply mul_le_mul_of_nonneg_right _ hp.le
      have : ((2 ^ 52 : ℤ) : ℚ) ≤ (R : ℚ) := by exact_mod_cast h1
      calc (2:ℚ) ^ (52:ℤ) = ((2 ^ 52 : ℤ) : ℚ) := by norm_num
        _ ≤ (R : ℚ) := this
    · rw [show (52 : ℤ) + s + 1 = 53 + s by omega, zpow_add₀ (by norm_num : (2:ℚ) ≠ 0)]
      apply mul_lt_mul_of_pos_right _ hp
      have : (R : ℚ) < ((2 ^ 53 : ℤ) : ℚ) := by exact_mod_cast h2
      calc (R : ℚ) < ((2 ^ 53 : ℤ) : ℚ) := this
        _ = (2:ℚ) ^ (53:ℤ) := by norm_num
  rw [roundDouble_eq hv, hlog, show (52 : ℤ) + s - 52 = s by omega,
    mul_div_cancel_right₀ _ hp.ne', rhe_intCast]

lemma roundDouble_pow2 (n : ℤ) : roundDouble ((2:ℚ) ^ n) = 2 ^ n := by
  have h := roundDouble_fix (R := 2 ^ 52) (s := n - 52) (le_refl _) (by norm_num)
  have he : ((2 ^ 52 : ℤ) : ℚ) * 2 ^ (n - 52) = (2:ℚ) ^ n := by
    rw [show ((2 ^ 52 : ℤ) : ℚ) = (2:ℚ) ^ (52:ℤ) by norm_num,
      ← zpow_add₀ (by norm_num : (2:ℚ) ≠ 0)]
    congr 1
    omega
  rw [he] at h
  exact h

lemma doubleRepr_div {v : ℚ} (h : DoubleRepr v) : DoubleRepr (v / 1024) := by
  obtain ⟨R, s, h1, h2, rfl⟩ := h
  refine ⟨R, s - 10, h1, h2, ?_⟩
  rw [mul_div_assoc, show (1024:ℚ) = (2:ℚ) ^ (10:ℤ) by norm_num,
    ← zpow_sub₀ (by norm_num : (2:ℚ) ≠ 0)]

lemma pyDiv1024_eq_div {v : ℚ} (h : DoubleRepr v) : pyDiv1024 v = v / 1024 := by
  obtain ⟨R2, s2, g1, g2, geq⟩ := doubleRepr_div h
  unfold pyDiv1024
  rw [geq, roundDouble_fix g1 g2]

lemma roundDouble_ge_pow {q : ℚ} {m : ℤ} (h1 : (2:ℚ) ^ m ≤ q)
    (h2 : q < (2:ℚ) ^ (m + 53)) : (2:ℚ) ^ m ≤ roundDouble q := by
  have hq : 0 < q := lt_of_lt_of_le (zpow_pos (by norm_num) m) h1
  obtain ⟨hb1, hb2⟩ := log2_bounds hq
  have hem : m ≤ Int.log 2 q := by
    have hlt : (2:ℚ) ^ m < (2:ℚ) ^ (Int.log 2 q + 1) := lt_of_le_of_lt h1 hb2
    have := (zpow_lt_zpow_iff_right₀ (by norm_num : (1:ℚ) < 2)).1 hlt
    omega
  have heu : Int.log 2 q ≤ m + 52 := by
    have hlt : (2:ℚ) ^ Int.log 2 q < (2:ℚ) ^ (m + 53) := lt_of_le_of_lt hb1 h2
    have := (zpow_lt_zpow_iff_right₀ (by norm_num : (1:ℚ) < 2)).1 hlt
    omega
  have hp : (0:ℚ) < 2 ^ (Int.log 2 q - 52) := zpow_pos (by norm_num) _
  have hxge : (2:ℚ) ^ (m - (Int.log 2 q - 52)) ≤ q / 2 ^ (Int.log 2 q - 52) := by
    rw [le_div_iff₀ hp, ← zpow_add₀ (by norm_num : (2:ℚ) ≠ 0)]
    convert h1 using 2
    omega
  set t : ℕ := (m - (Int.log 2 q - 52)).toNat with ht
  have htm : (t:ℤ) = m - (Int.log 2 q - 52) := Int.toNat_of_nonneg (by omega)
  have hxget : ((2 ^ t : ℤ) : ℚ) ≤ q / 2 ^ (Int.log 2 q - 52) := by
    have hcast : ((2 ^ t : ℤ) : ℚ) = (2:ℚ) ^ (m - (Int.log 2 q - 52)) := by
      push_cast
      rw [← zpow_natCast (2:ℚ) t, htm]
    rw [hcast]
    exact hxge
  have hR := rhe_ge (q / 2 ^ (Int.log 2 q - 52))
  have hRget : (2:ℤ) ^ t ≤ roundHalfEven (q / 2 ^ (Int.log 2 q - 52)) := by
    have hcc : ((2 ^ t - 1 : ℤ) : ℚ) <
        (roundHalfEven (q / 2 ^ (Int.log 2 q - 52)) : ℚ) := by
      push_cast at hxget ⊢
      linarith
    have hcc2 : (2 ^ t - 1 : ℤ) < roundHalfEven (q / 2 ^ (Int.log 2 q - 52)) := by
      exact_mod_cast hcc
    omega
  rw [roundDouble_eq hq]
  calc (2:ℚ) ^ m = ((2 ^ t : ℤ) : ℚ) * 2 ^ (Int.log 2 q - 52) := by
        push_cast
        rw [← zpow_natCast (2:ℚ) t, htm, ← zpow_add₀ (by norm_num : (2:ℚ) ≠ 0)]
        congr 1
        omega
    _ ≤ (roundHalfEven (q / 2 ^ (Int.log 2 q - 52)) : ℚ) * 2 ^ (Int.log 2 q - 52) :=
        mul_le_mul_of_nonneg_right (by exact_mod_cast hRget) hp.le

lemma roundDouble_lt_pow {q : ℚ} {m : ℤ} (hq : 0 < q)
    (h : q + 2 ^ (m - 54) < (2:ℚ) ^ m) : roundDouble q < 2 ^ m := by
  have hps : (0:ℚ) < 2 ^ (m - 54) := zpow_pos (by norm_num) _
  have hqm : q < (2:ℚ) ^ m := by linarith
  have hlt : Int.log 2 q < m := by
    refine (Int.lt_zpow_iff_log_lt one_lt_two hq).1 ?_
    rw [cast2]
    exact hqm
  have hmono : (2:ℚ) ^ (Int.log 2 q - 53) ≤ 2 ^ (m - 54) := by
    apply zpow_le_zpow_right₀ (by norm_num : (1:ℚ) ≤ 2)
    omega
  have := roundDouble_le hq
  linarith

def sizeUnits : List String := ["", "K", "M", "G", "T", "P"]

def get_size_val : ℚ → List String → Option (ℚ × String)
  | _, [] => none
  | v, u :: us => if v < 1024 then some (v, u) else get_size_val (pyDiv1024 v) us

def get_size (bytes_val : ℚ) (suffix : String := "B") : Option String :=
  (get_size_val bytes_val sizeUnits).map (fun p => fmtFixed 2 p.1 ++ p.2 ++ suffix)

/-- `f"{x}"` applied to a `None`-able value: CPython renders `None` as the
string `"None"` inside an f-string rather than raising. -/
def getSizeStr (b : ℚ) : String := (get_size b).getD "None"

/-- The unit index the spec mandates: the least `k` with `b < 1024 ^ (k+1)`,
capped at the last unit. -/
def specUnitIdx (b : ℚ) : ℕ :=
  if b < 1024 then 0
  else if b < 1024 ^ 2 then 1
  else if b < 1024 ^ 3 then 2
  else if b < 1024 ^ 4 then 3
  else if b < 1024 ^ 5 then 4
  else 5

lemma div_pow_lt_1024 (b : ℚ) (j : ℕ) : b / 1024 ^ j < 1024 ↔ b < 1024 ^ (j + 1) := by
  rw [div_lt_iff₀ (by positivity), pow_succ, mul_comm (1024 ^ j : ℚ) 1024]

lemma specUnitIdx_mono {b b' : ℚ} (h : b ≤ b') : specUnitIdx b ≤ specUnitIdx b' := by
  have c1 : (1024 : ℚ) ≤ 1024 ^ 2 := by norm_num
  have c2 : (1024 : ℚ) ^ 2 ≤ 1024 ^ 3 := by norm_num
  have c3 : (1024 : ℚ) ^ 3 ≤ 1024 ^ 4 := by norm_num
  have c4 : (1024 : ℚ) ^ 4 ≤ 1024 ^ 5 := by norm_num
  unfold specUnitIdx
  split_ifs <;> try norm_num
  all_goals exfalso; linarith

lemma specUnitIdx_ub {b : ℚ} (hb : b < 1024 ^ 6) : b < 1024 ^ (specUnitIdx b + 1) := by
  unfold specUnitIdx
  split_ifs <;> norm_num <;> linarith

lemma specUnitIdx_lb {b : ℚ} (h : 0 < specUnitIdx b) : 1024 ^ specUnitIdx b ≤ b := by
  unfold specUnitIdx at *
  split_ifs at *
  · exact absurd h (lt_irrefl 0)
  · rw [pow_one]; exact le_of_not_lt (by assumption)
  · exact le_of_not_lt (by assumption)
  · exact le_of_not_lt (by assumption)
  · exact le_of_not_lt (by assumption)
  · exact le_of_not_lt (by assumption)

lemma cast_lt_sub_one {b M : ℕ} (h : (b:ℚ) < (M:ℚ)) : (b:ℚ) ≤ (M:ℚ) - 1 := by
  have hb : b < M := by exact_mod_cast h
  have h1 : (b:ℚ) + 1 ≤ (M:ℚ) := by exact_mod_cast hb
  linarith

lemma pow1024 (j : ℕ) : (2:ℚ) ^ (10 * (j:ℤ)) = 1024 ^ j := by
  rw [show (10 * (j:ℤ)) = ((10 * j : ℕ) : ℤ) by push_cast; ring, zpow_natCast, pow_mul]
  norm_num

lemma loop_ge {b : ℚ} (j : ℕ) (hb : b ≤ 2 ^ 60 - 65) (hj : (1024:ℚ) ^ (j+1) ≤ b) :
    (1024:ℚ) ^ j ≤ roundDouble (b / 1024) := by
  have h1 : (2:ℚ) ^ (10 * (j:ℤ)) ≤ b / 1024 := by
    rw [pow1024, le_div_iff₀ (by norm_num : (0:ℚ) < 1024)]
    calc (1024:ℚ) ^ j * 1024 = 1024 ^ (j+1) := (pow_succ 1024 j).symm
      _ ≤ b := hj
  have h2 : b / 1024 < (2:ℚ) ^ (10 * (j:ℤ) + 53) := by
    have hlt : b / 1024 < (2:ℚ) ^ (50:ℤ) := by
      rw [div_lt_iff₀ (by norm_num : (0:ℚ) < 1024)]
      have he : (2:ℚ) ^ (50:ℤ) * 1024 = 2 ^ 60 := by norm_num
      linarith
    have hmono : (2:ℚ) ^ (50:ℤ) ≤ (2:ℚ) ^ (10 * (j:ℤ) + 53) := by
      apply zpow_le_zpow_right₀ (by norm_num : (1:ℚ) ≤ 2)
      omega
    linarith
  have h := roundDouble_ge_pow h1 h2
  rwa [pow1024] at h

lemma loop_lt {b : ℚ} {k : ℕ} (h0 : 0 < b) (hk : k ≤ 4) (hble : b ≤ 1024 ^ (k+1) - 1) :
    roundDouble (b / 1024) < (1024:ℚ) ^ k := by
  have hq : 0 < b / 1024 := by positivity
  have h14 : (2:ℚ) ^ (-14:ℤ) = 1 / 16384 := by norm_num
  have hsm : (2:ℚ) ^ (10 * (k:ℤ) - 54) ≤ (2:ℚ) ^ (-14:ℤ) := by
    apply zpow_le_zpow_right₀ (by norm_num : (1:ℚ) ≤ 2)
    omega
  have harg : b / 1024 + 2 ^ (10 * (k:ℤ) - 54) < (2:ℚ) ^ (10 * (k:ℤ)) := by
    rw [pow1024, div_add' _ _ _ (by norm_num : (1024:ℚ) ≠ 0),
      div_lt_iff₀ (by norm_num : (0:ℚ) < 1024)]
    have hsm1024 : (2:ℚ) ^ (10 * (k:ℤ) - 54) * 1024 ≤ 1 / 16 := by
      calc (2:ℚ) ^ (10 * (k:ℤ) - 54) * 1024 ≤ (1 / 16384) * 1024 := by
            apply mul_le_mul_of_nonneg_right _ (by norm_num)
            rw [← h14]; exact hsm
        _ = 1 / 16 := by norm_num
    linarith [hble, hsm1024, pow_succ (1024:ℚ) k]
  have h := roundDouble_lt_pow hq harg
  rwa [pow1024] at h

lemma get_size_val_eq (b : ℕ) (hb : (b : ℚ) ≤ 2 ^ 60 - 65) :
    ∃ v, get_size_val (b : ℚ) sizeUnits =
        some (v, sizeUnits.getD (specUnitIdx (b : ℚ)) "") ∧
      0 ≤ v ∧ v < 1024 ∧
      (specUnitIdx (b : ℚ) = 0 → v = (b : ℚ)) ∧
      (0 < specUnitIdx (b : ℚ) →
        v = roundDouble ((b : ℚ) / 1024) / 1024 ^ (specUnitIdx (b : ℚ) - 1)) := by
  rcases lt_or_le ((b:ℚ)) 1024 with h1 | h1
  · have hidx : specUnitIdx ((b:ℚ)) = 0 := by simp [specUnitIdx, h1]
    refine ⟨(b:ℚ), ?_, by positivity, h1, fun _ => rfl, ?_⟩
    · simp [get_size_val, sizeUnits, h1, hidx]
    · intro h; rw [hidx] at h; exact absurd h (lt_irrefl 0)
  · have h1' : ¬ ((b:ℚ) < 1024) := not_lt.2 h1
    have hbpos : (0:ℚ) < (b:ℚ) := by linarith
    have hq : (0:ℚ) < (b:ℚ) / 1024 := by positivity
    set w := roundDouble ((b : ℚ) / 1024) with hw
    have e1 : pyDiv1024 ((b : ℚ)) = w := by rw [hw]; rfl
    have hrep : DoubleRepr w := by rw [hw]; exact roundDouble_repr hq
    have hwpos : 0 < w := by rw [hw]; exact roundDouble_pos hq
    have e2 : pyDiv1024 w = w / 1024 := pyDiv1024_eq_div hrep
    have e3 : pyDiv1024 (w / 1024) = w / 1024 / 1024 :=
      pyDiv1024_eq_div (doubleRepr_div hrep)
    have e4 : pyDiv1024 (w / 1024 / 1024) = w / 1024 / 1024 / 1024 :=
      pyDiv1024_eq_div (doubleRepr_div (doubleRepr_div hrep))
    have e5 : pyDiv1024 (w / 1024 / 1024 / 1024) = w / 1024 / 1024 / 1024 / 1024 :=
      pyDiv1024_eq_div (doubleRepr_div (doubleRepr_div (doubleRepr_div hrep)))
    have d1 : w / 1024 = w / 1024 ^ 1 := by rw [pow_one]
    have d2 : w / 1024 / 1024 = w / 1024 ^ 2 := by rw [div_div]; norm_num
    have d3 : w / 1024 / 1024 / 1024 = w / 1024 ^ 3 := by rw [div_div, div_div]; norm_num
    have d4 : w / 1024 / 1024 / 1024 / 1024 = w / 1024 ^ 4 := by
      rw [div_div, div_div, div_div]; norm_num
    rcases lt_or_le ((b:ℚ)) (1024 ^ 2) with h2 | h2
    · -- unit "K"
      have hidx : specUnitIdx ((b:ℚ)) = 1 := by simp [specUnitIdx, h1', h2]
      have hble : (b:ℚ) ≤ (1024:ℚ) ^ 2 - 1 := by
        have h' : (b:ℚ) < ((1024 ^ 2 : ℕ) : ℚ) := by push_cast; exact h2
        have h'' := cast_lt_sub_one h'
        push_cast at h''; exact h''
      have hwlt : w < 1024 := by
        rw [hw]
        have h := loop_lt (k := 1) hbpos (by norm_num) hble
        rwa [pow_one] at h
      refine ⟨w, ?_, le_of_lt hwpos, hwlt, ?_, ?_⟩
      · simp only [get_size_val, sizeUnits, e1, if_neg h1', if_pos hwlt, hidx]
        rfl
      · intro h0; rw [hidx] at h0; exact absurd h0 (by norm_num)
      · intro _; rw [hidx]; norm_num
    · have g1 : (1024:ℚ) ≤ w := by
        rw [hw]
        have h := loop_ge 1 hb (le_trans (by norm_num) h2)
        rwa [pow_one] at h
      have c1 : ¬ w < 1024 := not_lt.2 g1
      rcases lt_or_le ((b:ℚ)) (1024 ^ 3) with h3 | h3
      · -- unit "M"
        have hidx : specUnitIdx ((b:ℚ)) = 2 := by simp [specUnitIdx, h1', not_lt.2 h2, h3]
        have hble : (b:ℚ) ≤ (1024:ℚ) ^ 3 - 1 := by
          have h' : (b:ℚ) < ((1024 ^ 3 : ℕ) : ℚ) := by push_cast; exact h3
          have h'' := cast_lt_sub_one h'
          push_cast at h''; exact h''
        have hwlt : w < 1024 ^ 2 := by
          rw [hw]; exact loop_lt (k := 2) hbpos (by norm_num) hble
        have c2 : w / 1024 < 1024 := by
          rw [d1, div_pow_lt_1024]; exact lt_of_lt_of_le hwlt (by norm_num)
        refine ⟨w / 1024 ^ 1, ?_, div_nonneg hwpos.le (by positivity), ?_, ?_, ?_⟩
        · simp only [get_size_val, sizeUnits, e1, e2, if_neg h1', if_neg c1, if_pos c2, hidx]
          rw [d1]
          rfl
        · rw [div_pow_lt_1024]; exact lt_of_lt_of_le hwlt (by norm_num)
        · intro h0; rw [hidx] at h0; exact absurd h0 (by norm_num)
        · intro _; rw [hidx]
      · have g2 : (1024:ℚ) ^ 2 ≤ w := by rw [hw]; exact loop_ge 2 hb (le_trans (by norm_num) h3)
        have c2 : ¬ w / 1024 < 1024 := by
          rw [d1, div_pow_lt_1024]
          exact not_lt.2 (le_trans (by norm_num) g2)
        rcases lt_or_le ((b:ℚ)) (1024 ^ 4) with h4 | h4
        · -- unit "G"
          have hidx : specUnitIdx ((b:ℚ)) = 3 := by
            simp [specUnitIdx, h1', not_lt.2 h2, not_lt.2 h3, h4]
          have hble : (b:ℚ) ≤ (1024:ℚ) ^ 4 - 1 := by
            have h' : (b:ℚ) < ((1024 ^ 4 : ℕ) : ℚ) := by push_cast; exact h4
            have h'' := cast_lt_sub_one h'
            push_cast at h''; exact h''
          have hwlt : w < 1024 ^ 3 := by
            rw [hw]; exact loop_lt (k := 3) hbpos (by norm_num) hble
          have c3 : w / 1024 / 1024 < 1024 := by
            rw [d2, div_pow_lt_1024]; exact lt_of_lt_of_le hwlt (by norm_num)
          refine ⟨w / 1024 ^ 2, ?_, div_nonneg hwpos.le (by positivity), ?_, ?_, ?_⟩
          · simp only [get_size_val, sizeUnits, e1, e2, e3, if_neg h1', if_neg c1, if_neg c2,
              if_pos c3, hidx]
            rw [d2]
            rfl
          · rw [div_pow_lt_1024]; exact lt_of_lt_of_le hwlt (by norm_num)
          · intro h0; rw [hidx] at h0; exact absurd h0 (by norm_num)
          · intro _; rw [hidx]
        · have g3 : (1024:ℚ) ^ 3 ≤ w := by
            rw [hw]; exact loop_ge 3 hb (le_trans (by norm_num) h4)
          have c3 : ¬ w / 1024 / 1024 < 1024 := by
            rw [d2, div_pow_lt_1024]
            exact not_lt.2 (le_trans (by norm_num) g3)
          rcases lt_or_le ((b:ℚ)) (1024 ^ 5) with h5 | h5
          · -- unit "T"
            have hidx : specUnitIdx ((b:ℚ)) = 4 := by
              simp [specUnitIdx, h1', not_lt.2 h2, not_lt.2 h3, not_lt.2 h4, h5]
            have hble : (b:ℚ) ≤ (1024:ℚ) ^ 5 - 1 := by
              have h' : (b:ℚ) < ((1024 ^ 5 : ℕ) : ℚ) := by push_cast; exact h5
              have h'' := cast_lt_sub_one h'
              push_cast at h''; exact h''
            have hwlt : w < 1024 ^ 4 := by
              rw [hw]; exact loop_lt (k := 4) hbpos (by norm_num) hble
            have c4 : w / 1024 / 1024 / 1024 < 1024 := by
              rw [d3, div_pow_lt_1024]; exact lt_of_lt_of_le hwlt (by norm_num)
            refine ⟨w / 1024 ^ 3, ?_, div_nonneg hwpos.le (by positivity), ?_, ?_, ?_⟩
            · simp only [get_size_val, sizeUnits, e1, e2, e3, e4, if_neg h1', if_neg c1,
                if_neg c2, if_neg c3, if_pos c4, hidx]
              rw [d3]
              rfl
            · rw [div_pow_lt_1024]; exact lt_of_lt_of_le hwlt (by norm_num)
            · intro h0; rw [hidx] at h0; exact absurd h0 (by norm_num)
            · intro _; rw [hidx]
          · -- unit "P"
            have g4 : (1024:ℚ) ^ 4 ≤ w := by
              rw [hw]; exact loop_ge 4 hb (le_trans (by norm_num) h5)
            have c4 : ¬ w / 1024 / 1024 / 1024 < 1024 := by
              rw [d3, div_pow_lt_1024]
              exact not_lt.2 (le_trans (by norm_num) g4)
            have hidx : specUnitIdx ((b:ℚ)) = 5 := by
              simp [specUnitIdx, h1', not_lt.2 h2, not_lt.2 h3, not_lt.2 h4, not_lt.2 h5]
            have hwlt : w < 1024 ^ 5 := by
              rw [hw]
              have harg : (b:ℚ) / 1024 + 2 ^ ((50:ℤ) - 54) < (2:ℚ) ^ (50:ℤ) := by
                have hsm : (2:ℚ) ^ ((50:ℤ) - 54) = 1 / 16 := by norm_num
                have h50 : (2:ℚ) ^ (50:ℤ) = 1125899906842624 := by norm_num
                have he : (2:ℚ) ^ 60 - 65 = 1152921504606846911 := by norm_num
                rw [hsm, h50, div_add' _ _ _ (by norm_num : (1024:ℚ) ≠ 0),
                  div_lt_iff₀ (by norm_num : (0:ℚ) < 1024)]
                linarith [hb, he]
              have h := roundDouble_lt_pow hq harg
              rwa [show (2:ℚ) ^ (50:ℤ) = 1024 ^ 5 by norm_num] at h
            have c5 : w / 1024 / 1024 / 1024 / 1024 < 1024 := by
              rw [d4, div_pow_lt_1024]; exact lt_of_lt_of_le hwlt (by norm_num)
            refine ⟨w / 1024 ^ 4, ?_, div_nonneg hwpos.le (by positivity), ?_, ?_, ?_⟩
            · simp only [get_size_val, sizeUnits, e1, e2, e3, e4, e5, if_neg h1', if_neg c1,
                if_neg c2, if_neg c3, if_neg c4, if_pos c5, hidx]
              rw [d4]
              rfl
            · rw [div_pow_lt_1024]; exact lt_of_lt_of_le hwlt (by norm_num)
            · intro h0; rw [hidx] at h0; exact absurd h0 (by norm_num)
            · intro _; rw [hidx]

lemma fmtFixed_two_decimals (q : ℚ) :
    ∃ s t : String, fmtFixed 2 q = s ++ "." ++ t ∧ t.length = 2 := by
  refine ⟨toString (roundHalfEven (q * (10 : ℚ) ^ 2) / (10 : ℤ) ^ 2),
    padDigits 2 ((roundHalfEven (q * (10 : ℚ) ^ 2) % (10 : ℤ) ^ 2).toNat), ?_, rfl⟩
  rfl

lemma floor_tie : ⌊(2:ℚ) ^ 53 - 1/2⌋ = 2 ^ 53 - 1 := by
  rw [Int.floor_eq_iff]
  constructor
  · push_cast; norm_num
  · push_cast; norm_num

lemma rhe_tie : roundHalfEven ((2:ℚ) ^ 53 - 1/2) = 2 ^ 53 := by
  show (if ((2:ℚ) ^ 53 - 1/2) - (⌊(2:ℚ) ^ 53 - 1/2⌋ : ℚ) < 1/2 then ⌊(2:ℚ) ^ 53 - 1/2⌋
    else if 1/2 < ((2:ℚ) ^ 53 - 1/2) - (⌊(2:ℚ) ^ 53 - 1/2⌋ : ℚ) then ⌊(2:ℚ) ^ 53 - 1/2⌋ + 1
    else if 2 ∣ ⌊(2:ℚ) ^ 53 - 1/2⌋ then ⌊(2:ℚ) ^ 53 - 1/2⌋
    else ⌊(2:ℚ) ^ 53 - 1/2⌋ + 1) = 2 ^ 53
  rw [floor_tie]
  have hr : ((2:ℚ) ^ 53 - 1/2) - (((2:ℤ) ^ 53 - 1 : ℤ) : ℚ) = 1/2 := by push_cast; ring
  rw [hr]
  rw [if_neg (by norm_num), if_neg (by norm_num), if_neg (by omega)]
  ring

lemma roundDouble_tie : roundDouble ((2:ℚ) ^ 50 - 1/16) = 2 ^ 50 := by
  have hq : (0:ℚ) < (2:ℚ) ^ 50 - 1/16 := by norm_num
  have hlog : Int.log 2 ((2:ℚ) ^ 50 - 1/16) = 49 := by
    apply log2_eq
    · norm_num
    · norm_num
  rw [roundDouble, if_neg hq.ne', hlog]
  have harg : ((2:ℚ) ^ 50 - 1/16) / 2 ^ ((49:ℤ) - 52) = (2:ℚ) ^ 53 - 1/2 := by
    rw [show ((49:ℤ) - 52) = (-3 : ℤ) by norm_num]
    norm_num
  rw [harg, rhe_tie]
  rw [show ((49:ℤ) - 52) = (-3 : ℤ) by norm_num]
  push_cast
  norm_num

lemma pyDiv_tie : pyDiv1024 ((2:ℚ) ^ 60 - 64) = 2 ^ 50 := by
  show roundDouble (((2:ℚ) ^ 60 - 64) / 1024) = 2 ^ 50
  rw [show ((2:ℚ) ^ 60 - 64) / 1024 = (2:ℚ) ^ 50 - 1/16 by norm_num]
  exact roundDouble_tie

lemma pyDiv_pow2 {m n : ℤ} (h : m - 10 = n) : pyDiv1024 ((2:ℚ) ^ m) = (2:ℚ) ^ n := by
  show roundDouble ((2:ℚ) ^ m / 1024) = (2:ℚ) ^ n
  rw [show (1024:ℚ) = (2:ℚ) ^ (10:ℤ) by norm_num,
    ← zpow_sub₀ (by norm_num : (2:ℚ) ≠ 0), roundDouble_pow2]
  rw [show m - 10 = n from h]

/-- **C1** (counterexample): the claim asserts a formatted value for every
byte count `b ≥ 0`, but `bytes_val /= 1024` is binary64 float division:
at `b = 2^60 - 64` (which is `< 1024^6`) the first quotient
`2^50 - 1/16` is a tie between representable doubles and rounds up to
`2^50` (its round-down significand `2^53 - 1` is odd), so the loop never
sees a value below `1024`, exhausts the unit list, and the function falls
off its end returning `None`. -/
theorem get_size_overflow_cex :
    ((2:ℚ) ^ 60 - 64 < 1024 ^ 6) ∧ get_size ((2:ℚ) ^ 60 - 64) = none := by
  refine ⟨by norm_num, ?_⟩
  have c0 : ¬ ((2:ℚ) ^ 60 - 64 < 1024) := by norm_num
  have t50 : ((2:ℚ) ^ (50:ℤ)) = (2:ℚ) ^ (50:ℕ) := by norm_num
  have e1 : pyDiv1024 ((2:ℚ) ^ 60 - 64) = (2:ℚ) ^ (50:ℤ) := by rw [pyDiv_tie, t50]
  have e2 : pyDiv1024 ((2:ℚ) ^ (50:ℤ)) = (2:ℚ) ^ (40:ℤ) := pyDiv_pow2 (by norm_num)
  have e3 : pyDiv1024 ((2:ℚ) ^ (40:ℤ)) = (2:ℚ) ^ (30:ℤ) := pyDiv_pow2 (by norm_num)
  have e4 : pyDiv1024 ((2:ℚ) ^ (30:ℤ)) = (2:ℚ) ^ (20:ℤ) := pyDiv_pow2 (by norm_num)
  have e5 : pyDiv1024 ((2:ℚ) ^ (20:ℤ)) = (2:ℚ) ^ (10:ℤ) := pyDiv_pow2 (by norm_num)
  have c1 : ¬ ((2:ℚ) ^ (50:ℤ) < 1024) := by norm_num
  have c2 : ¬ ((2:ℚ) ^ (40:ℤ) < 1024) := by norm_num
  have c3 : ¬ ((2:ℚ) ^ (30:ℤ) < 1024) := by norm_num
  have c4 : ¬ ((2:ℚ) ^ (20:ℤ) < 1024) := by norm_num
  have c5 : ¬ ((2:ℚ) ^ (10:ℤ) < 1024) := by norm_num
  simp only [get_size, get_size_val, sizeUnits, e1, e2, e3, e4, e5, if_neg c0, if_neg c1,
    if_neg c2, if_neg c3, if_neg c4, if_neg c5, Option.map_none']

/-- **C1** (amended): for every integer byte count `b ≤ 2^60 - 65` (so
the first binary64 quotient stays below `2^50`), `get_size` returns a
formatted value: its magnitude is `b` itself when `b < 1024` and otherwise
the correctly rounded float quotient `roundDouble (b / 1024)`, divided
exactly by `1024` for each further step; the magnitude lies in
`[0, 1024)`; the unit is the minimal binary prefix from
`bytes → K → M → G → T → P` (index `specUnitIdx b`, the least `k` with
`b < 1024 ^ (k+1)`); the value is rendered with exactly two decimal
places; and the unit index is monotonic in `b`.  From `b = 2^60 - 64`
on, rounding pushes the first quotient up to `2^50` and the function
returns `None` (see the counterexample). -/
theorem get_size_correct (b b' : ℕ) (hb : (b : ℚ) ≤ 2 ^ 60 - 65) (hbb : b ≤ b') :
    ∃ v u, get_size_val (b : ℚ) sizeUnits = some (v, u) ∧
      (specUnitIdx (b : ℚ) = 0 → v = (b : ℚ)) ∧
      (0 < specUnitIdx (b : ℚ) →
        v = roundDouble ((b : ℚ) / 1024) / 1024 ^ (specUnitIdx (b : ℚ) - 1)) ∧
      0 ≤ v ∧ v < 1024 ∧
      (0 < specUnitIdx (b : ℚ) → 1024 ^ specUnitIdx (b : ℚ) ≤ (b : ℚ)) ∧
      u = sizeUnits.getD (specUnitIdx (b : ℚ)) "" ∧
      get_size (b : ℚ) = some (fmtFixed 2 v ++ u ++ "B") ∧
      (∃ s t : String, fmtFixed 2 v = s ++ "." ++ t ∧ t.length = 2) ∧
      specUnitIdx ((b : ℚ)) ≤ specUnitIdx ((b' : ℚ)) := by
  obtain ⟨v, hval, h0, h1024, hz, hp⟩ := get_size_val_eq b hb
  refine ⟨v, sizeUnits.getD (specUnitIdx (b : ℚ)) "", hval, hz, hp, h0, h1024,
    fun h => specUnitIdx_lb h, rfl, ?_, fmtFixed_two_decimals v,
    specUnitIdx_mono (by exact_mod_cast hbb)⟩
  rw [get_size, hval, Option.map_some']

/-- Witness for `get_size_correct` at `b = 2048`, `b' = 3000000`. -/
theorem get_size_correct_witness :
    (((2048:ℕ) : ℚ) ≤ 2 ^ 60 - 65 ∧ (2048:ℕ) ≤ 3000000) ∧
    (∃ v u, get_size_val (((2048:ℕ)) : ℚ) sizeUnits = some (v, u) ∧
      (specUnitIdx (((2048:ℕ)) : ℚ) = 0 → v = (((2048:ℕ)) : ℚ)) ∧
      (0 < specUnitIdx (((2048:ℕ)) : ℚ) →
        v = roundDouble ((((2048:ℕ)) : ℚ) / 1024) / 1024 ^ (specUnitIdx (((2048:ℕ)) : ℚ) - 1)) ∧
      0 ≤ v ∧ v < 1024 ∧
      (0 < specUnitIdx (((2048:ℕ)) : ℚ) →
        1024 ^ specUnitIdx (((2048:ℕ)) : ℚ) ≤ (((2048:ℕ)) : ℚ)) ∧
      u = sizeUnits.getD (specUnitIdx (((2048:ℕ)) : ℚ)) "" ∧
      get_size (((2048:ℕ)) : ℚ) = some (fmtFixed 2 v ++ u ++ "B") ∧
      (∃ s t : String, fmtFixed 2 v = s ++ "." ++ t ∧ t.length = 2) ∧
      specUnitIdx ((((2048:ℕ)) : ℚ)) ≤ specUnitIdx ((((3000000:ℕ)) : ℚ))) :=
  ⟨⟨by norm_num, by norm_num⟩, get_size_correct 2048 3000000 (by norm_num) (by norm_num)⟩


/-! ## Ambient host state

Every fallible library call (`psutil`, `winreg`, file reads) and every
external process invocation (`subprocess.run`) is a field of `HostState`,
an `Except String`-valued result carrying the Python exception text on
failure.  Values that CPython renders inside f-strings are stored in the
shapes the code inspects. -/

/-- `"c" * n`. -/
def repeatChar (n : ℕ) (c : Char) : String := String.mk (List.replicate n c)

def sep50 : String := repeatChar 50 '='

def sep60 : String := repeatChar 60 '='

def dash50 : String := repeatChar 50 '-'

def startsWithL : List Char → List Char → Bool
  | _, [] => true
  | [], _ :: _ => false
  | a :: as, b :: bs => a == b && startsWithL as bs

def hasSubL (pat : List Char) : List Char → Bool
  | [] => startsWithL [] pat
  | c :: cs => startsWithL (c :: cs) pat || hasSubL pat cs

/-- Python's `pat in s` on strings: substring containment. -/
def strContains (s pat : String) : Bool := hasSubL pat.data s.data

/-- Python's `' '.join`-style separator join. -/
def joinSep (sep : String) (l : List String) : String := String.intercalate sep l

/-- Python's `str.split()` (whitespace split, empty fields dropped; the
fields this program splits contain no tabs). -/
def splitWs (s : String) : List String := (s.splitOn " ").filter (fun t => !t.isEmpty)

/-- Python's `str.isdigit` on ASCII output of `wmic`. -/
def isDigits (s : String) : Bool := !s.isEmpty && s.data.all Char.isDigit

/-- CPython `repr` of a float inside an f-string; exact for integral
values, which is the only shape the claims inspect. -/
def pyFloatStr (q : ℚ) : String := if q.den = 1 then toString q.num ++ ".0" else toString q

/-- f-string rendering of `psutil.cpu_count`, which may return `None`. -/
def optCountStr : Option ℕ → String
  | some n => toString n
  | none => "None"

/-- `datetime.fromtimestamp(..).strftime(..)`; calendar rendering is
abstracted to the timestamp value (no claim inspects the date format). -/
def fmtTimestamp (t : Int) : String := toString t

/-- result of `subprocess.run(..., capture_output=True, text=True)`. -/
structure CmdResult where
  returncode : Int
  stdout : String

/-- An external PowerShell pipeline ending in `ConvertTo-Json`: the raw
process result plus the value `json.loads` would yield on its stdout
(`none` models a JSON decode failure or a shape the code's accesses
reject). -/
structure PsCmd (α : Type) where
  raw : Except String CmdResult
  decoded : Option α

structure CpuFreq where
  max : ℚ
  min : ℚ
  current : ℚ

structure VirtMem where
  total : ℚ
  available : ℚ
  used : ℚ
  percent : ℚ
  free : ℚ

structure SwapMem where
  total : ℚ
  used : ℚ
  percent : ℚ
  free : ℚ

structure DiskUsage where
  total : ℚ
  used : ℚ
  percent : ℚ
  free : ℚ

/-- One `psutil.disk_partitions()` entry; `usage` is the guarded
per-partition `psutil.disk_usage(mountpoint)` call. -/
structure PartitionEntry where
  device : String
  mountpoint : String
  fstype : String
  usage : Except String DiskUsage

structure DiskIo where
  read_bytes : ℚ
  write_bytes : ℚ

structure NetIo where
  bytes_sent : ℚ
  bytes_recv : ℚ

/-- One address of `psutil.net_if_addrs()`; the whole `addr.family.name`
comparison is inside a `try`, so `family` is fallible. -/
structure AddrEntry where
  family : Except String String
  address : String
  netmask : String

structure TempEntry where
  label : String
  current : ℚ
  high : Option ℚ
  critical : Option ℚ

structure BatteryInfo where
  percent : ℚ
  power_plugged : Bool
  secsleft : Int

def psutilPOWER_TIME_UNKNOWN : Int := -1

def psutilPOWER_TIME_UNLIMITED : Int := -2

/-- A decoded `Win32_PhysicalMemory` JSON record. -/
structure RamModule where
  manufacturer : String
  partNumber : String
  capacity : Option Int
  speed : Option Int
  deviceLocator : String

/-- A decoded `Win32_BaseBoard` JSON record. -/
structure MoboJson where
  manufacturer : String
  product : String
  version : String
  serialNumber : String

/-- A decoded `Win32_BIOS` JSON record; `releaseDateParsed` is the
`datetime.fromisoformat(..).strftime('%Y-%m-%d')` rendering when the ISO
parse succeeds (`none` = the guarded parse raised). -/
structure BiosJson where
  manufacturer : String
  name : String
  version : String
  releaseDate : String
  releaseDateParsed : Option String

structure GpuNameJson where
  name : String

structure DiskJson where
  model : String
  size : Option Int

structure ThermalJson where
  currentTemperature : Option ℚ

structure HostState where
  -- platform module (these identification calls do not fail in practice
  -- and are unguarded in the source)
  system : String
  release : String
  processor : String
  machine : String
  unameSystem : String
  unameNode : String
  unameRelease : String
  unameVersion : String
  unameMachine : String
  unameProcessor : String
  now : String
  -- winreg ProcessorNameString query (guarded at both call sites)
  regCpuName : Except String String
  -- psutil
  cpuCountPhysical : Except String (Option ℕ)
  cpuCountLogical : Except String (Option ℕ)
  cpuFreq : Except String (Option CpuFreq)
  cpuPercents : Except String (List ℚ)
  cpuPercentTotal : Except String ℚ
  virtualMemory : Except String VirtMem
  swapMemory : Except String SwapMem
  diskPartitions : Except String (List PartitionEntry)
  diskIo : Except String (Option DiskIo)
  netIfAddrs : Except String (List (String × List AddrEntry))
  netIo : Except String NetIo
  bootTime : Except String Int
  sensorsTemperatures : Except String (List (String × List TempEntry))
  sensorsBattery : Except String (Option BatteryInfo)
  -- subprocess invocations
  wmicCpu : Except String CmdResult
  nvidiaSmiNames : Except String CmdResult
  nvidiaSmiFull : Except String CmdResult
  wmicVideo : Except String CmdResult
  wmicMemoryChip : Except String CmdResult
  wmicDiskDrive : Except String CmdResult
  psVideoNames : PsCmd (List GpuNameJson)
  psPhysicalMemorySummary : PsCmd (List RamModule)
  psPhysicalMemory : PsCmd (List RamModule)
  psBaseBoardSummary : PsCmd MoboJson
  psBaseBoard : PsCmd MoboJson
  psBios : PsCmd BiosJson
  psDiskDrive : PsCmd (List DiskJson)
  psThermal : PsCmd ThermalJson
  -- /sys/devices/virtual/dmi/id file reads (Linux branch)
  sysBoardVendor : Except String String
  sysBoardName : Except String String
  sysBoardVersion : Except String String

/-! ## Collector functions

A collector raising an uncaught Python exception is an `Except.error`;
text accumulated into `info` before the raise is discarded, exactly as in
the source, because the `pure` happens only at the function's `return`. -/

/-- `get_os_info` (lines 885-902): uname block, then the unguarded
`psutil.boot_time()`. -/
def get_os_info (st : HostState) : Except String String := do
  let bt ← st.bootTime
  pure ("OPERATING SYSTEM\n" ++ sep50 ++ "\n\n"
    ++ "System: " ++ st.unameSystem ++ "\n"
    ++ "Node Name: " ++ st.unameNode ++ "\n"
    ++ "Release: " ++ st.unameRelease ++ "\n"
    ++ "Version: " ++ st.unameVersion ++ "\n"
    ++ "Machine: " ++ st.unameMachine ++ "\n"
    ++ "Processor: " ++ st.unameProcessor ++ "\n\n"
    ++ "Boot Time: " ++ fmtTimestamp bt ++ "\n")

/-- The CPU model-name fallback chain of `get_cpu_info` (lines 388-419):
registry, then `wmic cpu get name` (whose output is used only when the
exit code is 0 and a second output line exists), and
`platform.processor()` only when the `wmic` invocation itself raises. -/
def cpuNameChain (st : HostState) : String :=
  if st.system = "Windows" then
    match st.regCpuName with
    | .ok n => n.trim
    | .error _ =>
      match st.wmicCpu with
      | .ok r =>
        if r.returncode = 0 then
          let lines := r.stdout.trim.splitOn "\n"
          if lines.length > 1 then ((lines.get? 1).getD "").trim
          else "Unknown CPU"
        else "Unknown CPU"
      | .error _ => st.processor
  else st.processor

/-- `get_cpu_info` (lines 386-436). -/
def get_cpu_info (st : HostState) : Except String String := do
  let cpu_name := cpuNameChain st
  let phys ← st.cpuCountPhysical
  let logi ← st.cpuCountLogical
  let freq ← st.cpuFreq
  let percents ← st.cpuPercents
  let total ← st.cpuPercentTotal
  let freqPart :=
    match freq with
    | some f =>
      "Max Frequency: " ++ fmtFixed 2 f.max ++ " MHz\n"
      ++ "Min Frequency: " ++ fmtFixed 2 f.min ++ " MHz\n"
      ++ "Current Frequency: " ++ fmtFixed 2 f.current ++ " MHz\n\n"
    | none => ""
  pure ("CPU INFORMATION\n" ++ sep50 ++ "\n\n"
    ++ "Processor: " ++ cpu_name ++ "\n"
    ++ "Architecture: " ++ st.machine ++ "\n"
    ++ "Physical Cores: " ++ optCountStr phys ++ "\n"
    ++ "Total Cores: " ++ optCountStr logi ++ "\n\n"
    ++ freqPart
    ++ "CPU Usage Per Core:\n"
    ++ String.join (percents.enum.map
        (fun p => "  Core " ++ toString p.1 ++ ": " ++ pyFloatStr p.2 ++ "%\n"))
    ++ "\nTotal CPU Usage: " ++ pyFloatStr total ++ "%\n")

/-- One decoded `Win32_PhysicalMemory` module block (lines 472-494). -/
def ramModuleBlockPS (i : ℕ) (m : RamModule) : String :=
  "Module " ++ toString i ++ ":\n"
  ++ (match m.capacity with
      | some c => if c = 0 then "" else "  Capacity: " ++ getSizeStr (c : ℚ) ++ "\n"
      | none => "")
  ++ (if m.manufacturer.trim.isEmpty then ""
      else "  Manufacturer: " ++ m.manufacturer.trim ++ "\n")
  ++ (if m.partNumber.trim.isEmpty then ""
      else "  Part Number: " ++ m.partNumber.trim ++ "\n")
  ++ (match m.speed with
      | some s => if s = 0 then "" else "  Speed: " ++ toString s ++ " MHz\n"
      | none => "")
  ++ (if m.deviceLocator.trim.isEmpty then ""
      else "  Slot: " ++ m.deviceLocator.trim ++ "\n")
  ++ "\n"

/-- One line of the `wmic memorychip` fallback parse (lines 510-531),
folded over `(accumulated text, next module number)`. -/
def wmicMemLine (acc : String × ℕ) (rawLine : String) : String × ℕ :=
  let line := rawLine.trim
  if line.isEmpty then acc
  else
    let parts := splitWs line
    if parts.length ≥ 2 && isDigits (parts.headD "") then
      let capacity := (parts.headD "").toNat?.getD 0
      if capacity > 0 then
        let block :=
          "Module " ++ toString acc.2 ++ ":\n"
          ++ "  Capacity: " ++ getSizeStr (capacity : ℚ) ++ "\n"
          ++ "  Speed: " ++ (parts.get? 1).getD "" ++ " MHz\n"
          ++ (if parts.length ≥ 3 then
                "  Manufacturer: " ++ (parts.get? 2).getD "" ++ "\n" else "")
          ++ (if parts.length ≥ 4 then
                "  Part Number: " ++ joinSep " " (parts.drop 3) ++ "\n" else "")
          ++ "\n"
        (acc.1 ++ block, acc.2 + 1)
      else acc
    else acc

/-- The `wmic memorychip` fallback of `get_memory_info` (lines 498-536). -/
def wmicMemFallback (st : HostState) : String :=
  match st.wmicMemoryChip with
  | .ok r =>
    if r.returncode = 0 && !r.stdout.trim.isEmpty then
      let lines := r.stdout.trim.splitOn "\n"
      if lines.length > 1 then ((lines.drop 1).foldl wmicMemLine ("", 1)).1
      else ""
    else "RAM module details unavailable\n\n"
  | .error e => "RAM module details unavailable: " ++ e ++ "\n\n"

/-- The Windows RAM-modules subsection of `get_memory_info`
(lines 456-539); every failure inside it is caught locally.
Abstraction note: `decoded` is all-or-nothing for the module list, so a
failure that the source could hit midway through the per-module loop
(e.g. a non-decode exception after some blocks were appended) is
collapsed into the `decoded = none` case; no theorem depends on the
partial text of that subsection. -/
def ramModulesSection (st : HostState) : String :=
  match st.psPhysicalMemory.raw with
  | .ok r =>
    if r.returncode = 0 && !r.stdout.trim.isEmpty then
      match st.psPhysicalMemory.decoded with
      | some mods =>
        String.join (mods.enum.map (fun p => ramModuleBlockPS (p.1 + 1) p.2))
      | none => "Could not parse RAM module information\n\n"
    else wmicMemFallback st
  | .error e => "Detailed RAM info unavailable: " ++ e ++ "\n\n"

/-- `get_memory_info` (lines 438-547). -/
def get_memory_info (st : HostState) : Except String String := do
  let sv ← st.virtualMemory
  let winPart :=
    if st.system = "Windows" then
      "\n" ++ sep50 ++ "\n" ++ "RAM MODULES:\n" ++ sep50 ++ "\n\n"
      ++ ramModulesSection st
    else ""
  let sw ← st.swapMemory
  pure ("MEMORY INFORMATION\n" ++ sep50 ++ "\n\n"
    ++ "Total RAM: " ++ getSizeStr sv.total ++ "\n"
    ++ "Available: " ++ getSizeStr sv.available ++ "\n"
    ++ "Used: " ++ getSizeStr sv.used ++ " (" ++ pyFloatStr sv.percent ++ "%)\n"
    ++ "Free: " ++ getSizeStr sv.free ++ "\n"
    ++ winPart
    ++ "\nSwap Memory:\n"
    ++ "  Total: " ++ getSizeStr sw.total ++ "\n"
    ++ "  Used: " ++ getSizeStr sw.used ++ " (" ++ pyFloatStr sw.percent ++ "%)\n"
    ++ "  Free: " ++ getSizeStr sw.free ++ "\n")

/-- One `nvidia-smi` CSV line of `get_gpu_info` (lines 558-570). -/
def nvidiaGpuBlock (i : ℕ) (line : String) : String :=
  let parts := (line.splitOn ",").map String.trim
  if parts.length ≥ 7 then
    "GPU " ++ toString i ++ ": " ++ parts.headD "" ++ "\n"
    ++ "  Driver Version: " ++ (parts.get? 1).getD "" ++ "\n"
    ++ "  Temperature: " ++ (parts.get? 2).getD "" ++ "°C\n"
    ++ "  Memory Total: " ++ (parts.get? 3).getD "" ++ " MB\n"
    ++ "  Memory Used: " ++ (parts.get? 4).getD "" ++ " MB\n"
    ++ "  Memory Free: " ++ (parts.get? 5).getD "" ++ " MB\n"
    ++ "  GPU Utilization: " ++ (parts.get? 6).getD "" ++ "%\n\n"
  else ""

def lookupA (d : List (String × String)) (k : String) : Option String :=
  (d.find? (fun p => p.1 = k)).map Prod.snd

def dictSet (d : List (String × String)) (k v : String) : List (String × String) :=
  if d.any (fun p => p.1 = k) then d.map (fun p => if p.1 = k then (k, v) else p)
  else d ++ [(k, v)]

/-- One step of the `wmic /format:list` accumulate-and-flush loop shared
by `get_gpu_info` (lines 584-600) and `get_disk_info` (lines 652-667):
`key=value` lines fill the current record, a non-`=` line flushes it via
`emit` when the record has the distinguishing `key`, setting the found
flag. -/
def wmicListStep (emit : List (String × String) → String) (key : String)
    (acc : String × List (String × String) × Bool) (rawLine : String) :
    String × List (String × String) × Bool :=
  let line := rawLine.trim
  if line.contains '=' then
    let k := ((line.splitOn "=").headD "")
    let v := joinSep "=" ((line.splitOn "=").drop 1)
    if !v.isEmpty then (acc.1, dictSet acc.2.1 k v, acc.2.2) else acc
  else
    if !acc.2.1.isEmpty && (lookupA acc.2.1 key).isSome then
      (acc.1 ++ emit acc.2.1, [], true)
    else acc

/-- The per-record text of the `wmic path win32_videocontroller` parse
(lines 589-599). -/
def wmicGpuBlock (d : List (String × String)) : String :=
  ((lookupA d "Name").getD "Unknown") ++ "\n"
  ++ (match lookupA d "DriverVersion" with
      | some v => "  Driver: " ++ v ++ "\n"
      | none => "")
  ++ (match lookupA d "AdapterRAM" with
      | some v =>
        match v.toInt? with
        | some ram => "  Memory: " ++ getSizeStr (ram : ℚ) ++ "\n"
        | none => ""
      | none => "")
  ++ "\n"

/-- `get_gpu_info` (lines 549-617): total, every query is guarded. -/
def get_gpu_info (st : HostState) : String :=
  let nv :=
    match st.nvidiaSmiFull with
    | .ok r =>
      if r.returncode = 0 && !r.stdout.trim.isEmpty then
        (true, "NVIDIA GPU(s):\n\n"
          ++ String.join ((r.stdout.trim.splitOn "\n").enum.map
              (fun (p : ℕ × String) => nvidiaGpuBlock p.1 p.2)))
      else (false, "")
    | .error _ => (false, "")
  let win :=
    if st.system = "Windows" then
      match st.wmicVideo with
      | .ok r =>
        if r.returncode = 0 && !r.stdout.trim.isEmpty then
          let header := if !nv.1 then "Detected GPU(s):\n\n" else ""
          let res := (r.stdout.splitOn "\n").foldl
            (wmicListStep wmicGpuBlock "Name") ("", [], false)
          (res.2.2, header ++ res.1)
        else (false, "")
      | .error _ => (false, "")
    else (false, "")
  "GPU INFORMATION\n" ++ sep50 ++ "\n\n"
  ++ nv.2 ++ win.2
  ++ (if !(nv.1 || win.1) then "No GPU information available\n" else "")

/-- One partition block of `get_disk_info` (lines 624-636). -/
def partitionBlock (p : PartitionEntry) : String :=
  "Device: " ++ p.device ++ "\n"
  ++ "  Mountpoint: " ++ p.mountpoint ++ "\n"
  ++ "  File System: " ++ p.fstype ++ "\n"
  ++ (match p.usage with
      | .ok u =>
        "  Total: " ++ getSizeStr u.total ++ "\n"
        ++ "  Used: " ++ getSizeStr u.used ++ " (" ++ pyFloatStr u.percent ++ "%)\n"
        ++ "  Free: " ++ getSizeStr u.free ++ "\n"
      | .error _ => "  (Permission denied)\n")
  ++ "\n"

/-- The per-record text of the `wmic diskdrive` parse (lines 656-666). -/
def wmicDiskBlock (d : List (String × String)) : String :=
  "\n  " ++ ((lookupA d "Model").getD "Unknown") ++ "\n"
  ++ (match lookupA d "Size" with
      | some v =>
        match v.toInt? with
        | some size => "    Capacity: " ++ getSizeStr (size : ℚ) ++ "\n"
        | none => ""
      | none => "")
  ++ (match lookupA d "InterfaceType" with
      | some v => "    Interface: " ++ v ++ "\n"
      | none => "")

/-- `get_disk_info` (lines 619-672).  `psutil.disk_partitions()` and
`psutil.disk_io_counters()` are unguarded; the per-partition usage query
and the `wmic` invocation are guarded. -/
def get_disk_info (st : HostState) : Except String String := do
  let parts ← st.diskPartitions
  let dio ← st.diskIo
  let ioPart :=
    match dio with
    | some io =>
      "Total Disk I/O:\n"
      ++ "  Read: " ++ getSizeStr io.read_bytes ++ "\n"
      ++ "  Written: " ++ getSizeStr io.write_bytes ++ "\n\n"
    | none => ""
  let winPart :=
    if st.system = "Windows" then
      match st.wmicDiskDrive with
      | .ok r =>
        if r.returncode = 0 then
          "Physical Disks:\n"
          ++ ((r.stdout.splitOn "\n").foldl
              (wmicListStep wmicDiskBlock "Model") ("", [], false)).1
        else ""
      | .error _ => ""
    else ""
  pure ("STORAGE INFORMATION\n" ++ sep50 ++ "\n\n"
    ++ String.join (parts.map partitionBlock)
    ++ ioPart ++ winPart)

/-- The Windows board+BIOS section of `get_motherboard_info`
(lines 679-760).  One `try` wraps both PowerShell queries, so text added
before a raise survives and `"Unavailable: e"` is appended.  `import json`
runs only inside the baseboard branch's check (line 692): if that check
failed but the BIOS check passes, `json.loads` at line 730 raises
`NameError` — and the `except json.JSONDecodeError` clause itself raises
`NameError` too — so the outer handler appends the quoted
`Unavailable: name ...json... is not defined` message after the BIOS
header (`jsonImported` below). -/
def winBoardSection (st : HostState) : String :=
  match st.psBaseBoard.raw with
  | .error e => "Unavailable: " ++ e ++ "\n"
  | .ok r =>
    let jsonImported := r.returncode = 0 && !r.stdout.trim.isEmpty
    let moboPart :=
      if r.returncode = 0 && !r.stdout.trim.isEmpty then
        match st.psBaseBoard.decoded with
        | some m =>
          (if m.manufacturer.trim.isEmpty then ""
           else "Manufacturer: " ++ m.manufacturer.trim ++ "\n")
          ++ (if m.product.trim.isEmpty then ""
              else "Model: " ++ m.product.trim ++ "\n")
          ++ (if m.version.trim.isEmpty then ""
              else "Version: " ++ m.version.trim ++ "\n")
          ++ (if !m.serialNumber.trim.isEmpty && m.serialNumber.trim ≠ "Default string" then
                "Serial Number: " ++ m.serialNumber.trim ++ "\n"
              else "")
        | none => "Could not parse motherboard information\n"
      else "Motherboard information unavailable\n"
    let biosHeader := "\n" ++ dash50 ++ "\n" ++ "BIOS Information:\n" ++ dash50 ++ "\n\n"
    match st.psBios.raw with
    | .error e => moboPart ++ biosHeader ++ "Unavailable: " ++ e ++ "\n"
    | .ok r2 =>
      let biosPart :=
        if r2.returncode = 0 && !r2.stdout.trim.isEmpty then
          if !jsonImported then "Unavailable: name \x27json\x27 is not defined\n"
          else match st.psBios.decoded with
          | some b =>
            (if b.manufacturer.trim.isEmpty then ""
             else "Manufacturer: " ++ b.manufacturer.trim ++ "\n")
            ++ (if b.name.trim.isEmpty then "" else "Name: " ++ b.name.trim ++ "\n")
            ++ (if b.version.trim.isEmpty then ""
                else "Version: " ++ b.version.trim ++ "\n")
            ++ (if b.releaseDate.trim.isEmpty then ""
                else "Release Date: "
                  ++ b.releaseDateParsed.getD b.releaseDate.trim ++ "\n")
          | none => "Could not parse BIOS information\n"
        else "BIOS information unavailable\n"
      moboPart ++ biosHeader ++ biosPart

/-- The Linux board section of `get_motherboard_info` (lines 761-770):
one `try` around three sequential sysfs reads; lines read before the
failing one survive, then the placeholder is appended. -/
def linuxBoardSection (st : HostState) : String :=
  match st.sysBoardVendor with
  | .error _ => "Unavailable (may need root)\n"
  | .ok v =>
    match st.sysBoardName with
    | .error _ => "Manufacturer: " ++ v.trim ++ "\n" ++ "Unavailable (may need root)\n"
    | .ok n =>
      match st.sysBoardVersion with
      | .error _ =>
        "Manufacturer: " ++ v.trim ++ "\n" ++ "Product: " ++ n.trim ++ "\n"
        ++ "Unavailable (may need root)\n"
      | .ok ver =>
        "Manufacturer: " ++ v.trim ++ "\n" ++ "Product: " ++ n.trim ++ "\n"
        ++ "Version: " ++ ver.trim ++ "\n"

/-- One sensor line (lines 787-794); `entry.label or 'Sensor'` and the
Python falsiness of `None`/`0.0` for `high`/`critical`. -/
def tempEntryLine (e : TempEntry) : String :=
  "  " ++ (if e.label.isEmpty then "Sensor" else e.label) ++ ": "
  ++ pyFloatStr e.current ++ "°C"
  ++ (match e.high with
      | some h => if h = 0 then "" else " (High: " ++ pyFloatStr h ++ "°C)"
      | none => "")
  ++ (match e.critical with
      | some c => if c = 0 then "" else " (Critical: " ++ pyFloatStr c ++ "°C)"
      | none => "")
  ++ "\n"

/-- The `psutil.sensors_temperatures()` section (lines 781-798),
returning `(text, temp_found)`. -/
def tempsSection (st : HostState) : String × Bool :=
  match st.sensorsTemperatures with
  | .ok temps =>
    if !temps.isEmpty then
      (String.join (temps.map (fun p =>
        p.1 ++ ":\n" ++ String.join (p.2.map tempEntryLine) ++ "\n")), true)
    else ("", false)
  | .error _ => ("", false)

/-- The Windows `MSAcpi_ThermalZoneTemperature` fallback (lines 800-826). -/
def winThermalSection (st : HostState) : String × Bool :=
  match st.psThermal.raw with
  | .error _ => ("", false)
  | .ok r =>
    if r.returncode = 0 && !r.stdout.trim.isEmpty
        && strContains r.stdout "CurrentTemperature" then
      match st.psThermal.decoded with
      | some t =>
        match t.currentTemperature with
        | some temp =>
          ("CPU Temperature: " ++ fmtFixed 1 (temp / 10 - 27315 / 100) ++ "°C\n\n", true)
        | none => ("", false)
      | none => ("", false)
    else ("", false)

/-- The no-sensors note (lines 828-834). -/
def tempNotFoundNote : String :=
  "Temperature sensors not available.\n"
  ++ "\nNote: Windows does not expose temperature sensors through standard APIs.\n"
  ++ "For temperature monitoring on Windows, use:\n"
  ++ "  - HWMonitor (https://www.cpuid.com/softwares/hwmonitor.html)\n"
  ++ "  - Core Temp (https://www.alcpu.com/CoreTemp/)\n"
  ++ "  - Open Hardware Monitor (https://openhardwaremonitor.org/)\n\n"

/-- The battery section (lines 836-856). -/
def batterySection (st : HostState) : String :=
  match st.sensorsBattery with
  | .error _ => "Battery info unavailable\n"
  | .ok none => "No battery (desktop system)\n"
  | .ok (some b) =>
    "Battery: " ++ pyFloatStr b.percent ++ "%\n"
    ++ "Power Plugged: " ++ (if b.power_plugged then "Yes" else "No") ++ "\n"
    ++ (if !b.power_plugged then
          if b.secsleft ≠ psutilPOWER_TIME_UNLIMITED
              && b.secsleft ≠ psutilPOWER_TIME_UNKNOWN then
            "Time Remaining: " ++ toString (b.secsleft / 3600) ++ "h "
            ++ toString (b.secsleft % 3600 / 60) ++ "m\n"
          else ""
        else "")

/-- `get_motherboard_info` (lines 674-857): total, every query is
guarded. -/
def get_motherboard_info (st : HostState) : String :=
  let boardPart :=
    if st.system = "Windows" then winBoardSection st
    else if st.system = "Linux" then linuxBoardSection st
    else "Not available on this platform\n"
  let t1 := tempsSection st
  let t2 := if st.system = "Windows" && !t1.2 then winThermalSection st else ("", false)
  "MOTHERBOARD INFORMATION\n" ++ sep50 ++ "\n\n"
  ++ boardPart
  ++ "\n" ++ sep50 ++ "\n" ++ "TEMPERATURE SENSORS\n" ++ sep50 ++ "\n\n"
  ++ t1.1 ++ t2.1
  ++ (if !(t1.2 || t2.2) then tempNotFoundNote else "")
  ++ "\n" ++ sep50 ++ "\n" ++ "POWER / BATTERY\n" ++ sep50 ++ "\n\n"
  ++ batterySection st

/-- The guarded per-address lines of `get_network_info` (lines 867-875). -/
def addrLines (a : AddrEntry) : String :=
  match a.family with
  | .ok "AF_INET" => "  IPv4: " ++ a.address ++ "\n" ++ "  Netmask: " ++ a.netmask ++ "\n"
  | .ok "AF_INET6" => "  IPv6: " ++ a.address ++ "\n"
  | .ok _ => ""
  | .error _ => ""

/-- `get_network_info` (lines 859-883).  `psutil.net_if_addrs()` and
`psutil.net_io_counters()` are unguarded. -/
def get_network_info (st : HostState) : Except String String := do
  let ifs ← st.netIfAddrs
  let nio ← st.netIo
  pure ("NETWORK INFORMATION\n" ++ sep50 ++ "\n\n"
    ++ String.join (ifs.map (fun p =>
        p.1 ++ ":\n" ++ String.join (p.2.map addrLines) ++ "\n"))
    ++ "Total Network I/O:\n"
    ++ "  Sent: " ++ getSizeStr nio.bytes_sent ++ "\n"
    ++ "  Received: " ++ getSizeStr nio.bytes_recv ++ "\n")

/-- The CPU-name selection of `get_components_summary` (lines 177-189):
registry on Windows with `platform.processor()` as the only fallback. -/
def summaryCpuName (st : HostState) : String :=
  if st.system = "Windows" then
    match st.regCpuName with
    | .ok n => n.trim
    | .error _ => st.processor
  else st.processor

/-- The GPU block of `get_components_summary` (lines 198-246). -/
def summaryGpuSection (st : HostState) : String :=
  let nv :=
    match st.nvidiaSmiNames with
    | .ok r =>
      if r.returncode = 0 && !r.stdout.trim.isEmpty then
        (String.join ((r.stdout.trim.splitOn "\n").map
          (fun (l : String) => "└─ " ++ l.trim ++ "\n")), true)
      else ("", false)
    | .error _ => ("", false)
  let win :=
    if st.system = "Windows" then
      match st.psVideoNames.raw with
      | .ok r =>
        if r.returncode = 0 && !r.stdout.trim.isEmpty then
          match st.psVideoNames.decoded with
          | some gpus =>
            let blocks := gpus.filterMap (fun g =>
              if g.name.trim.isEmpty then none else some ("└─ " ++ g.name.trim ++ "\n"))
            (String.join blocks, !blocks.isEmpty)
          | none => ("", false)
        else ("", false)
      | .error _ => ("", false)
    else ("", false)
  "┌─ GRAPHICS CARD(S)\n" ++ "│\n" ++ nv.1 ++ win.1
  ++ (if !(nv.2 || win.2) then "└─ No GPU detected\n" else "")
  ++ "\n"

/-- One RAM module line of `get_components_summary` (lines 268-285). -/
def summaryRamModuleLine (i : ℕ) (m : RamModule) : String :=
  match m.capacity with
  | some c =>
    if c = 0 then ""
    else
      "   • Module " ++ toString i ++ ": " ++ getSizeStr (c : ℚ)
      ++ (match m.speed with
          | some s => if s = 0 then "" else " @ " ++ toString s ++ "MHz"
          | none => "")
      ++ (if !m.manufacturer.trim.isEmpty && m.manufacturer.trim ≠ "Unknown" then
            " (" ++ m.manufacturer.trim
            ++ (if !m.partNumber.trim.isEmpty then " " ++ m.partNumber.trim else "")
            ++ ")"
          else "")
      ++ "\n"
  | none => ""

/-- The RAM block of `get_components_summary` (lines 248-289). -/
def summaryRamSection (st : HostState) (sv : VirtMem) : String :=
  let win :=
    if st.system = "Windows" then
      match st.psPhysicalMemorySummary.raw with
      | .ok r =>
        if r.returncode = 0 && !r.stdout.trim.isEmpty then
          match st.psPhysicalMemorySummary.decoded with
          | some mods =>
            String.join (mods.enum.map (fun p => summaryRamModuleLine (p.1 + 1) p.2))
          | none => ""
        else ""
      | .error _ => ""
    else ""
  "┌─ MEMORY (RAM)\n" ++ "│\n" ++ "└─ Total: " ++ getSizeStr sv.total ++ "\n"
  ++ win ++ "\n"

/-- The motherboard block of `get_components_summary` (lines 291-325). -/
def summaryMoboSection (st : HostState) : String :=
  "┌─ MOTHERBOARD\n" ++ "│\n"
  ++ (if st.system = "Windows" then
        match st.psBaseBoardSummary.raw with
        | .ok r =>
          if r.returncode = 0 && !r.stdout.trim.isEmpty then
            match st.psBaseBoardSummary.decoded with
            | some m =>
              if !m.manufacturer.trim.isEmpty || !m.product.trim.isEmpty then
                "└─ " ++ (m.manufacturer.trim ++ " " ++ m.product.trim).trim ++ "\n"
              else "└─ Unknown motherboard\n"
            | none => "└─ Unknown motherboard\n"
          else "└─ Unknown motherboard\n"
        | .error _ => "└─ Unknown motherboard\n"
      else "└─ Motherboard info not available\n")
  ++ "\n"

/-- One physical-disk line of `get_components_summary` (lines 341-351). -/
def summaryDiskLine (d : DiskJson) : String :=
  if d.model.trim.isEmpty then ""
  else
    "└─ " ++ d.model.trim
    ++ (match d.size with
        | some s => if s = 0 then "" else " (" ++ getSizeStr (s : ℚ) ++ ")"
        | none => "")
    ++ "\n"

/-- The storage block of `get_components_summary` (lines 327-371). -/
def summaryStorageSection (st : HostState) (parts : List PartitionEntry) : String :=
  let win :=
    if st.system = "Windows" then
      match st.psDiskDrive.raw with
      | .ok r =>
        if r.returncode = 0 && !r.stdout.trim.isEmpty then
          match st.psDiskDrive.decoded with
          | some disks => String.join (disks.map summaryDiskLine)
          | none => ""
        else ""
      | .error _ => ""
    else ""
  let total : ℚ := parts.foldl
    (fun acc p => match p.usage with | .ok u => acc + u.total | .error _ => acc) 0
  "┌─ STORAGE DEVICES\n" ++ "│\n" ++ win
  ++ (if total > 0 then "   • Total Storage: " ++ getSizeStr total ++ "\n" else "")
  ++ "\n"

/-- `get_components_summary` (lines 171-384).  `psutil.cpu_count`,
`psutil.cpu_freq`, `psutil.virtual_memory` and `psutil.disk_partitions`
are unguarded. -/
def get_components_summary (st : HostState) : Except String String := do
  let phys ← st.cpuCountPhysical
  let logi ← st.cpuCountLogical
  let freq ← st.cpuFreq
  let sv ← st.virtualMemory
  let parts ← st.diskPartitions
  pure ("ALL COMPONENTS - QUICK OVERVIEW\n" ++ sep60 ++ "\n\n"
    ++ "┌─ PROCESSOR\n" ++ "│\n"
    ++ "└─ " ++ summaryCpuName st ++ "\n"
    ++ "   • Cores: " ++ optCountStr phys ++ " Physical / " ++ optCountStr logi
    ++ " Logical\n"
    ++ (match freq with
        | some f => "   • Frequency: " ++ fmtFixed 0 f.max ++ " MHz\n"
        | none => "")
    ++ "\n"
    ++ summaryGpuSection st
    ++ summaryRamSection st sv
    ++ summaryMoboSection st
    ++ summaryStorageSection st parts
    ++ "┌─ OPERATING SYSTEM\n" ++ "│\n"
    ++ "└─ " ++ st.unameSystem ++ " " ++ st.unameRelease ++ "\n"
    ++ "   • Version: " ++ st.unameVersion ++ "\n"
    ++ "\n" ++ sep60 ++ "\n"
    ++ "\n💡 Click other tabs for detailed specifications")

/-- The Summary text built inline by `scan_system` (lines 132-148). -/
def scanSummary (st : HostState) : Except String String := do
  let phys ← st.cpuCountPhysical
  let logi ← st.cpuCountLogical
  let sv ← st.virtualMemory
  let parts ← st.diskPartitions
  pure ("Scan Date: " ++ st.now ++ "\n\n"
    ++ "System: " ++ st.system ++ " " ++ st.release ++ "\n"
    ++ "Processor: " ++ st.processor ++ "\n"
    ++ "CPU Cores: " ++ optCountStr phys ++ " Physical, " ++ optCountStr logi
    ++ " Logical\n"
    ++ "Total RAM: " ++ getSizeStr sv.total ++ "\n"
    ++ "Storage Devices: " ++ toString parts.length ++ "\n"
    ++ "\n" ++ sep50 ++ "\n"
    ++ "Click other tabs for detailed information")

/-- The worker body of `scan_system` (lines 116-157): every collector in
source order, then the nine tab updates in the order of the `root.after`
calls; the surrounding `try` makes any uncaught collector exception the
session's failure. -/
def scan_results (st : HostState) : Except String (List (String × String)) := do
  let os_info ← get_os_info st
  let cpu_info ← get_cpu_info st
  let memory_info ← get_memory_info st
  let gpu_info := get_gpu_info st
  let storage_info ← get_disk_info st
  let motherboard_info := get_motherboard_info st
  let network_info ← get_network_info st
  let components_summary ← get_components_summary st
  let summary ← scanSummary st
  pure [("Summary", summary), ("All Components", components_summary),
    ("CPU", cpu_info), ("Memory", memory_info), ("GPU", gpu_info),
    ("Storage", storage_info), ("Motherboard", motherboard_info),
    ("Network", network_info), ("OS", os_info)]

/-! ## Presenter: tab slots, scan state machine, export -/

/-- The nine `create_tab` calls of `SystemInfoGUI.__init__` (lines 52-60),
in declaration order. -/
def tabNames : List String :=
  ["Summary", "All Components", "CPU", "Memory", "GPU",
   "Storage", "Motherboard", "Network", "OS"]

/-- Presentation state: `text_widgets` as an insertion-ordered association
list of (tab name, current text content), the scan button state, the
status label, and whether a worker thread is active. -/
structure GUI where
  tabs : List (String × String)
  scanEnabled : Bool
  status : String
  statusColor : String
  scanning : Bool

def initGUI : GUI where
  tabs := tabNames.map (fun n => (n, ""))
  scanEnabled := true
  status := "Ready to scan"
  statusColor := "blue"
  scanning := false

/-- `update_tab` (lines 92-99): replace the named widget's content; an
unknown name fails the `if tab_name in self.text_widgets` test and nothing
happens. -/
def update_tab (tabs : List (String × String)) (tab_name content : String) :
    List (String × String) :=
  if (tabs.map Prod.fst).contains tab_name then
    tabs.map (fun p => if p.1 = tab_name then (p.1, content) else p)
  else tabs

/-- `start_scan` (lines 101-114): disable the trigger, set the status,
clear every widget, launch the worker. -/
def start_scan (g : GUI) : GUI :=
  { g with
    scanEnabled := false
    status := "Scanning system..."
    statusColor := "orange"
    tabs := g.tabs.map (fun p => (p.1, ""))
    scanning := true }

/-- Worker completion: on success the nine `update_tab` marshals followed
by `scan_complete` (lines 150-168); on an uncaught exception the `except`
branch of `scan_system`.  Both re-enable the trigger and end the
session. -/
def applyScan (g : GUI) (st : HostState) : GUI :=
  match scan_results st with
  | .ok results =>
    let g2 := results.foldl (fun gg p => { gg with tabs := update_tab gg.tabs p.1 p.2 }) g
    { g2 with
      status := "Scan complete!"
      statusColor := "green"
      scanEnabled := true
      scanning := false }
  | .error e =>
    { g with
      status := "Error during scan: " ++ e
      statusColor := "red"
      scanEnabled := true
      scanning := false }

/-- Python's `str.upper()` (the tab labels are ASCII). -/
def strUpper (s : String) : String := String.mk (s.data.map Char.toUpper)

/-- `tkinter` `Text.get("1.0", "end")`: the buffer content plus the
widget's implicit trailing newline. -/
def widgetGet (content : String) : String := content ++ "\n"

/-- One section written by `export_to_text` (lines 909-915). -/
def exportSection (p : String × String) : String :=
  "\n" ++ sep60 ++ "\n" ++ strUpper p.1 ++ "\n" ++ sep60 ++ "\n\n"
  ++ widgetGet p.2 ++ "\n"

/-- The full file content `export_to_text` writes: the sections in
`text_widgets` insertion order. -/
def exportText (tabs : List (String × String)) : String :=
  tabs.foldl (fun acc p => acc ++ exportSection p) ""

/-- `export_to_text` (lines 904-921).  `ts` is the
`datetime.now().strftime('%Y%m%d_%H%M%S')` stamp and `write` the outcome
of the file write; returns the new GUI state and the written content
(`none` when the write raised). -/
def export_to_text (g : GUI) (ts : String) (write : Except String Unit) :
    GUI × Option String :=
  let filename := "system_info_" ++ ts ++ ".txt"
  match write with
  | .ok _ =>
    ({ g with status := "Exported to " ++ filename, statusColor := "green" },
     some (exportText g.tabs))
  | .error e =>
    ({ g with status := "Export failed: " ++ e, statusColor := "red" }, none)

/-- The user-visible events: a scan-button click (ignored by `tkinter`
while the button is disabled), the completion of the active worker on host
`st`, and an export-button click. -/
inductive Event where
  | pressScan : Event
  | workerDone : HostState → Event
  | pressExport : String → Except String Unit → Event

def step (g : GUI) : Event → GUI
  | .pressScan => if g.scanEnabled then start_scan g else g
  | .workerDone st => if g.scanning then applyScan g st else g
  | .pressExport ts w => (export_to_text g ts w).1

/-- The reachable presentation states: fold the event list from the
initial state. -/
def runEvents (evs : List Event) : GUI := evs.foldl step initGUI

/-- `Except` success as a `Bool`, for stating which ambient sources
succeeded. -/
def isOkE {α : Type} : Except String α → Bool
  | .ok _ => true
  | .error _ => false

/-- `strContains` lifted over a fallible collector result (`false` when
the collector raised). -/
def strContainsE (r : Except String String) (pat : String) : Bool :=
  match r with
  | .ok s => strContains s pat
  | .error _ => false

/-! ## General helper lemmas -/

lemma isOkE_ok {α : Type} {x : Except String α} (h : isOkE x = true) : ∃ a, x = .ok a := by
  cases x with
  | ok a => exact ⟨a, rfl⟩
  | error e => simp [isOkE] at h

lemma isOkE_err {α : Type} {x : Except String α} (h : isOkE x = false) :
    ∃ e, x = .error e := by
  cases x with
  | ok a => simp [isOkE] at h
  | error e => exact ⟨e, rfl⟩

lemma strAppend_assoc (a b c : String) : a ++ b ++ c = a ++ (b ++ c) := by
  apply String.ext
  simp [String.data_append]

lemma eq_empty_of_length_eq_zero {a : String} (h : a.length = 0) : a = "" := by
  apply String.ext
  have hd : a.data = [] := List.eq_nil_of_length_eq_zero h
  rw [hd]

lemma append_ne_empty_of_left {a b : String} (h : a ≠ "") : a ++ b ≠ "" := by
  intro he
  have hlen := congrArg String.length he
  rw [String.length_append] at hlen
  simp [String.length_empty] at hlen
  exact h (eq_empty_of_length_eq_zero hlen.1)

/-! ## Per-collector success lemmas -/

lemma get_os_info_ok_ne {st : HostState} {s : String} (h : get_os_info st = .ok s) :
    s ≠ "" := by
  cases hbt : st.bootTime with
  | error e => simp [get_os_info, hbt, Bind.bind, Except.bind, pure, Except.pure] at h
  | ok bt =>
    simp [get_os_info, hbt, Bind.bind, Except.bind, pure, Except.pure] at h
    subst h
    repeat' apply append_ne_empty_of_left
    decide

lemma get_os_info_isOk {st : HostState} (hbt : isOkE st.bootTime = true) :
    isOkE (get_os_info st) = true := by
  obtain ⟨bt, h⟩ := isOkE_ok hbt
  simp [get_os_info, h, Bind.bind, Except.bind, pure, Except.pure, isOkE]

lemma get_cpu_info_ok_ne {st : HostState} {s : String} (h : get_cpu_info st = .ok s) :
    s ≠ "" := by
  cases h1 : st.cpuCountPhysical with
  | error e =>
    simp [get_cpu_info, h1, Bind.bind, Except.bind, Functor.map, Except.map, pure,
      Except.pure] at h
  | ok phys =>
  cases h2 : st.cpuCountLogical with
  | error e =>
    simp [get_cpu_info, h1, h2, Bind.bind, Except.bind, Functor.map, Except.map, pure,
      Except.pure] at h
  | ok logi =>
  cases h3 : st.cpuFreq with
  | error e =>
    simp [get_cpu_info, h1, h2, h3, Bind.bind, Except.bind, Functor.map, Except.map, pure,
      Except.pure] at h
  | ok freq =>
  cases h4 : st.cpuPercents with
  | error e =>
    simp [get_cpu_info, h1, h2, h3, h4, Bind.bind, Except.bind, Functor.map, Except.map,
      pure, Except.pure] at h
  | ok percents =>
  cases h5 : st.cpuPercentTotal with
  | error e =>
    simp [get_cpu_info, h1, h2, h3, h4, h5, Bind.bind, Except.bind, Functor.map,
      Except.map, pure, Except.pure] at h
  | ok total =>
    simp [get_cpu_info, h1, h2, h3, h4, h5, Bind.bind, Except.bind, Functor.map,
      Except.map, pure, Except.pure] at h
    subst h
    repeat' apply append_ne_empty_of_left
    decide

lemma get_cpu_info_isOk {st : HostState} (k1 : isOkE st.cpuCountPhysical = true)
    (k2 : isOkE st.cpuCountLogical = true) (k3 : isOkE st.cpuFreq = true)
    (k4 : isOkE st.cpuPercents = true) (k5 : isOkE st.cpuPercentTotal = true) :
    isOkE (get_cpu_info st) = true := by
  obtain ⟨a1, e1⟩ := isOkE_ok k1
  obtain ⟨a2, e2⟩ := isOkE_ok k2
  obtain ⟨a3, e3⟩ := isOkE_ok k3
  obtain ⟨a4, e4⟩ := isOkE_ok k4
  obtain ⟨a5, e5⟩ := isOkE_ok k5
  simp [get_cpu_info, e1, e2, e3, e4, e5, Bind.bind, Except.bind, Functor.map, Except.map,
    pure, Except.pure, isOkE]

lemma get_memory_info_ok_ne {st : HostState} {s : String}
    (h : get_memory_info st = .ok s) : s ≠ "" := by
  cases h1 : st.virtualMemory with
  | error e =>
    simp [get_memory_info, h1, Bind.bind, Except.bind, Functor.map, Except.map, pure,
      Except.pure] at h
  | ok sv =>
  cases h2 : st.swapMemory with
  | error e =>
    simp [get_memory_info, h1, h2, Bind.bind, Except.bind, Functor.map, Except.map, pure,
      Except.pure] at h
  | ok sw =>
    simp [get_memory_info, h1, h2, Bind.bind, Except.bind, Functor.map, Except.map, pure,
      Except.pure] at h
    subst h
    repeat' apply append_ne_empty_of_left
    decide

lemma get_memory_info_isOk {st : HostState} (k1 : isOkE st.virtualMemory = true)
    (k2 : isOkE st.swapMemory = true) : isOkE (get_memory_info st) = true := by
  obtain ⟨a1, e1⟩ := isOkE_ok k1
  obtain ⟨a2, e2⟩ := isOkE_ok k2
  simp [get_memory_info, e1, e2, Bind.bind, Except.bind, Functor.map, Except.map, pure,
    Except.pure, isOkE]

lemma get_disk_info_ok_ne {st : HostState} {s : String}
    (h : get_disk_info st = .ok s) : s ≠ "" := by
  cases h1 : st.diskPartitions with
  | error e =>
    simp [get_disk_info, h1, Bind.bind, Except.bind, Functor.map, Except.map, pure,
      Except.pure] at h
  | ok parts =>
  cases h2 : st.diskIo with
  | error e =>
    simp [get_disk_info, h1, h2, Bind.bind, Except.bind, Functor.map, Except.map, pure,
      Except.pure] at h
  | ok dio =>
    simp [get_disk_info, h1, h2, Bind.bind, Except.bind, Functor.map, Except.map, pure,
      Except.pure] at h
    subst h
    repeat' apply append_ne_empty_of_left
    decide

lemma get_disk_info_isOk {st : HostState} (k1 : isOkE st.diskPartitions = true)
    (k2 : isOkE st.diskIo = true) : isOkE (get_disk_info st) = true := by
  obtain ⟨a1, e1⟩ := isOkE_ok k1
  obtain ⟨a2, e2⟩ := isOkE_ok k2
  simp [get_disk_info, e1, e2, Bind.bind, Except.bind, Functor.map, Except.map, pure,
    Except.pure, isOkE]

lemma get_network_info_ok_ne {st : HostState} {s : String}
    (h : get_network_info st = .ok s) : s ≠ "" := by
  cases h1 : st.netIfAddrs with
  | error e =>
    simp [get_network_info, h1, Bind.bind, Except.bind, Functor.map, Except.map, pure,
      Except.pure] at h
  | ok ifs =>
  cases h2 : st.netIo with
  | error e =>
    simp [get_network_info, h1, h2, Bind.bind, Except.bind, Functor.map, Except.map, pure,
      Except.pure] at h
  | ok nio =>
    simp [get_network_info, h1, h2, Bind.bind, Except.bind, Functor.map, Except.map, pure,
      Except.pure] at h
    subst h
    repeat' apply append_ne_empty_of_left
    decide

lemma get_network_info_isOk {st : HostState} (k1 : isOkE st.netIfAddrs = true)
    (k2 : isOkE st.netIo = true) : isOkE (get_network_info st) = true := by
  obtain ⟨a1, e1⟩ := isOkE_ok k1
  obtain ⟨a2, e2⟩ := isOkE_ok k2
  simp [get_network_info, e1, e2, Bind.bind, Except.bind, Functor.map, Except.map, pure,
    Except.pure, isOkE]

lemma get_components_summary_ok_ne {st : HostState} {s : String}
    (h : get_components_summary st = .ok s) : s ≠ "" := by
  cases h1 : st.cpuCountPhysical with
  | error e =>
    simp [get_components_summary, h1, Bind.bind, Except.bind, Functor.map, Except.map,
      pure, Except.pure] at h
  | ok phys =>
  cases h2 : st.cpuCountLogical with
  | error e =>
    simp [get_components_summary, h1, h2, Bind.bind, Except.bind, Functor.map, Except.map,
      pure, Except.pure] at h
  | ok logi =>
  cases h3 : st.cpuFreq with
  | error e =>
    simp [get_components_summary, h1, h2, h3, Bind.bind, Except.bind, Functor.map,
      Except.map, pure, Except.pure] at h
  | ok freq =>
  cases h4 : st.virtualMemory with
  | error e =>
    simp [get_components_summary, h1, h2, h3, h4, Bind.bind, Except.bind, Functor.map,
      Except.map, pure, Except.pure] at h
  | ok sv =>
  cases h5 : st.diskPartitions with
  | error e =>
    simp [get_components_summary, h1, h2, h3, h4, h5, Bind.bind, Except.bind, Functor.map,
      Except.map, pure, Except.pure] at h
  | ok parts =>
    simp [get_components_summary, h1, h2, h3, h4, h5, Bind.bind, Except.bind, Functor.map,
      Except.map, pure, Except.pure] at h
    subst h
    repeat' apply append_ne_empty_of_left
    decide

lemma get_components_summary_isOk {st : HostState}
    (k1 : isOkE st.cpuCountPhysical = true) (k2 : isOkE st.cpuCountLogical = true)
    (k3 : isOkE st.cpuFreq = true) (k4 : isOkE st.virtualMemory = true)
    (k5 : isOkE st.diskPartitions = true) :
    isOkE (get_components_summary st) = true := by
  obtain ⟨a1, e1⟩ := isOkE_ok k1
  obtain ⟨a2, e2⟩ := isOkE_ok k2
  obtain ⟨a3, e3⟩ := isOkE_ok k3
  obtain ⟨a4, e4⟩ := isOkE_ok k4
  obtain ⟨a5, e5⟩ := isOkE_ok k5
  simp [get_components_summary, e1, e2, e3, e4, e5, Bind.bind, Except.bind, Functor.map,
    Except.map, pure, Except.pure, isOkE]

lemma scanSummary_ok_ne {st : HostState} {s : String}
    (h : scanSummary st = .ok s) : s ≠ "" := by
  cases h1 : st.cpuCountPhysical with
  | error e =>
    simp [scanSummary, h1, Bind.bind, Except.bind, Functor.map, Except.map, pure,
      Except.pure] at h
  | ok phys =>
  cases h2 : st.cpuCountLogical with
  | error e =>
    simp [scanSummary, h1, h2, Bind.bind, Except.bind, Functor.map, Except.map, pure,
      Except.pure] at h
  | ok logi =>
  cases h3 : st.virtualMemory with
  | error e =>
    simp [scanSummary, h1, h2, h3, Bind.bind, Except.bind, Functor.map, Except.map, pure,
      Except.pure] at h
  | ok sv =>
  cases h4 : st.diskPartitions with
  | error e =>
    simp [scanSummary, h1, h2, h3, h4, Bind.bind, Except.bind, Functor.map, Except.map,
      pure, Except.pure] at h
  | ok parts =>
    simp [scanSummary, h1, h2, h3, h4, Bind.bind, Except.bind, Functor.map, Except.map,
      pure, Except.pure] at h
    subst h
    repeat' apply append_ne_empty_of_left
    decide

lemma scanSummary_isOk {st : HostState} (k1 : isOkE st.cpuCountPhysical = true)
    (k2 : isOkE st.cpuCountLogical = true) (k3 : isOkE st.virtualMemory = true)
    (k4 : isOkE st.diskPartitions = true) : isOkE (scanSummary st) = true := by
  obtain ⟨a1, e1⟩ := isOkE_ok k1
  obtain ⟨a2, e2⟩ := isOkE_ok k2
  obtain ⟨a3, e3⟩ := isOkE_ok k3
  obtain ⟨a4, e4⟩ := isOkE_ok k4
  simp [scanSummary, e1, e2, e3, e4, Bind.bind, Except.bind, Functor.map, Except.map,
    pure, Except.pure, isOkE]

lemma get_gpu_info_ne (st : HostState) : get_gpu_info st ≠ "" := by
  simp only [get_gpu_info]
  repeat' apply append_ne_empty_of_left
  decide

lemma get_motherboard_info_ne (st : HostState) : get_motherboard_info st ≠ "" := by
  simp only [get_motherboard_info]
  repeat' apply append_ne_empty_of_left
  decide

/-! ## Tab-slot lemmas -/

lemma keyOf_ite (p : String × String) (n c : String) :
    ((if p.1 = n then (p.1, c) else p) : String × String).1 = p.1 := by
  split <;> rfl

lemma update_tab_keys (tabs : List (String × String)) (n c : String) :
    (update_tab tabs n c).map Prod.fst = tabs.map Prod.fst := by
  unfold update_tab
  split
  · rw [List.map_map]
    apply List.map_congr_left
    intro p _
    exact keyOf_ite p n c
  · rfl

lemma start_scan_keys (g : GUI) :
    (start_scan g).tabs.map Prod.fst = g.tabs.map Prod.fst := by
  simp only [start_scan, List.map_map]
  congr 1

lemma lookup_cons_hit {β : Type} (k : String) (v : β) (l : List (String × β)) :
    List.lookup k ((k, v) :: l) = some v := by
  simp [List.lookup]

lemma lookup_cons_miss {β : Type} {k k' : String} (v : β) (l : List (String × β))
    (h : ¬ k = k') : List.lookup k ((k', v) :: l) = List.lookup k l := by
  have hb : (k == k') = false := beq_eq_false_iff_ne.mpr h
  simp [List.lookup, hb]

lemma lookup_map_ite (tabs : List (String × String)) (n c : String)
    (h : n ∈ tabs.map Prod.fst) :
    (tabs.map (fun p => if p.1 = n then (p.1, c) else p)).lookup n = some c := by
  induction tabs with
  | nil => simp at h
  | cons p ps ih =>
    by_cases hp : p.1 = n
    · subst hp
      rw [List.map_cons, if_pos rfl, lookup_cons_hit]
    · have h' : n ∈ ps.map Prod.fst := by
        rcases List.mem_cons.1 (by simpa using h : n ∈ p.1 :: ps.map Prod.fst) with h0 | h0
        · exact absurd h0.symm hp
        · exact h0
      have hmp : ¬ n = p.1 := fun hh => hp hh.symm
      rw [List.map_cons, if_neg hp]
      cases p with
      | mk k v => rw [lookup_cons_miss v _ hmp, ih h']

lemma lookup_map_ite_other (tabs : List (String × String)) (n m c : String)
    (hnm : m ≠ n) :
    (tabs.map (fun p => if p.1 = n then (p.1, c) else p)).lookup m = tabs.lookup m := by
  induction tabs with
  | nil => rfl
  | cons p ps ih =>
    by_cases hp : p.1 = n
    · have hmp : ¬ m = p.1 := by rw [hp]; exact hnm
      rw [List.map_cons, if_pos hp]
      cases p with
      | mk k v => rw [lookup_cons_miss c _ hmp, lookup_cons_miss v _ hmp, ih]
    · rw [List.map_cons, if_neg hp]
      by_cases hm : m = p.1
      · subst hm
        cases p with
        | mk k v => simp [lookup_cons_hit]
      · cases p with
        | mk k v => rw [lookup_cons_miss v _ hm, lookup_cons_miss v _ hm, ih]

lemma update_tab_lookup_self (tabs : List (String × String)) (n c : String)
    (h : n ∈ tabs.map Prod.fst) :
    (update_tab tabs n c).lookup n = some c := by
  unfold update_tab
  have hc : (tabs.map Prod.fst).contains n = true := by
    simpa [List.contains, List.elem_iff] using h
  rw [if_pos hc]
  exact lookup_map_ite tabs n c h

lemma update_tab_lookup_other (tabs : List (String × String)) (n m c : String)
    (hnm : m ≠ n) :
    (update_tab tabs n c).lookup m = tabs.lookup m := by
  unfold update_tab
  split
  · exact lookup_map_ite_other tabs n m c hnm
  · rfl

/-- Success of the whole worker pins down each collector's success and the
exact nine-pair result list. -/
lemma scan_results_ok_elim {st : HostState} {l : List (String × String)}
    (h : scan_results st = .ok l) :
    ∃ os_info cpu_info memory_info storage_info network_info components_summary summary,
      get_os_info st = .ok os_info ∧ get_cpu_info st = .ok cpu_info ∧
      get_memory_info st = .ok memory_info ∧ get_disk_info st = .ok storage_info ∧
      get_network_info st = .ok network_info ∧
      get_components_summary st = .ok components_summary ∧
      scanSummary st = .ok summary ∧
      l = [("Summary", summary), ("All Components", components_summary),
        ("CPU", cpu_info), ("Memory", memory_info), ("GPU", get_gpu_info st),
        ("Storage", storage_info), ("Motherboard", get_motherboard_info st),
        ("Network", network_info), ("OS", os_info)] := by
  cases c1 : get_os_info st with
  | error e =>
    simp [scan_results, c1, Bind.bind, Except.bind, Functor.map, Except.map, pure,
      Except.pure] at h
  | ok os_info =>
  cases c2 : get_cpu_info st with
  | error e =>
    simp [scan_results, c1, c2, Bind.bind, Except.bind, Functor.map, Except.map, pure,
      Except.pure] at h
  | ok cpu_info =>
  cases c3 : get_memory_info st with
  | error e =>
    simp [scan_results, c1, c2, c3, Bind.bind, Except.bind, Functor.map, Except.map, pure,
      Except.pure] at h
  | ok memory_info =>
  cases c4 : get_disk_info st with
  | error e =>
    simp [scan_results, c1, c2, c3, c4, Bind.bind, Except.bind, Functor.map, Except.map,
      pure, Except.pure] at h
  | ok storage_info =>
  cases c5 : get_network_info st with
  | error e =>
    simp [scan_results, c1, c2, c3, c4, c5, Bind.bind, Except.bind, Functor.map,
      Except.map, pure, Except.pure] at h
  | ok network_info =>
  cases c6 : get_components_summary st with
  | error e =>
    simp [scan_results, c1, c2, c3, c4, c5, c6, Bind.bind, Except.bind, Functor.map,
      Except.map, pure, Except.pure] at h
  | ok components_summary =>
  cases c7 : scanSummary st with
  | error e =>
    simp [scan_results, c1, c2, c3, c4, c5, c6, c7, Bind.bind, Except.bind, Functor.map,
      Except.map, pure, Except.pure] at h
  | ok summary =>
    simp [scan_results, c1, c2, c3, c4, c5, c6, c7, Bind.bind, Except.bind, Functor.map,
      Except.map, pure, Except.pure] at h
    exact ⟨os_info, cpu_info, memory_info, storage_info, network_info,
      components_summary, summary, rfl, rfl, rfl, rfl, rfl, rfl, rfl, h.symm⟩

lemma foldl_tabs (l : List (String × String)) (g : GUI) :
    (l.foldl (fun gg p => { gg with tabs := update_tab gg.tabs p.1 p.2 }) g).tabs =
    l.foldl (fun tabs p => update_tab tabs p.1 p.2) g.tabs := by
  induction l generalizing g with
  | nil => rfl
  | cons p ps ih => simpa using ih { g with tabs := update_tab g.tabs p.1 p.2 }

lemma applyScan_ok {g : GUI} {st : HostState} {l : List (String × String)}
    (hl : scan_results st = .ok l) :
    (applyScan g st).status = "Scan complete!" ∧
    (applyScan g st).tabs = l.foldl (fun tabs p => update_tab tabs p.1 p.2) g.tabs := by
  unfold applyScan
  rw [hl]
  exact ⟨rfl, foldl_tabs l g⟩

lemma mem_keys_of_eq {t : List (String × String)} {n : String}
    (hk : t.map Prod.fst = tabNames) (hn : n ∈ tabNames) : n ∈ t.map Prod.fst := by
  rw [hk]
  exact hn

lemma lookup_foldl_notmem (l : List (String × String)) (t : List (String × String))
    (n : String) (h : n ∉ l.map Prod.fst) :
    List.lookup n (l.foldl (fun tabs p => update_tab tabs p.1 p.2) t) =
    List.lookup n t := by
  induction l generalizing t with
  | nil => rfl
  | cons p ps ih =>
    have hn1 : n ≠ p.1 := by
      intro hh
      exact h (by rw [List.map_cons, hh]; exact List.mem_cons_self _ _)
    have hn2 : n ∉ ps.map Prod.fst := fun hh =>
      h (by rw [List.map_cons]; exact List.mem_cons_of_mem _ hh)
    rw [List.foldl_cons, ih _ hn2, update_tab_lookup_other _ _ _ _ hn1]

lemma lookup_foldl_mem : ∀ (l : List (String × String)) (t : List (String × String))
    (n c : String), (n, c) ∈ l → (l.map Prod.fst).Nodup →
    (∀ m, m ∈ l.map Prod.fst → m ∈ t.map Prod.fst) →
    List.lookup n (l.foldl (fun tabs p => update_tab tabs p.1 p.2) t) = some c := by
  intro l
  induction l with
  | nil =>
    intro t n c hmem _ _
    simp at hmem
  | cons p ps ih =>
    intro t n c hmem hnd hsub
    rw [List.foldl_cons]
    rcases List.mem_cons.1 hmem with heq | hmem2
    · subst heq
      have hn : n ∉ ps.map Prod.fst := by
        rw [List.map_cons] at hnd
        exact (List.nodup_cons.1 hnd).1
      rw [lookup_foldl_notmem _ _ _ hn,
        update_tab_lookup_self _ _ _ (hsub n (by rw [List.map_cons]; exact List.mem_cons_self _ _))]
    · have hnd2 : (ps.map Prod.fst).Nodup := by
        rw [List.map_cons] at hnd
        exact (List.nodup_cons.1 hnd).2
      have hsub2 : ∀ m, m ∈ ps.map Prod.fst → m ∈ (update_tab t p.1 p.2).map Prod.fst := by
        intro m hm
        rw [update_tab_keys]
        exact hsub m (by rw [List.map_cons]; exact List.mem_cons_of_mem _ hm)
      exact ih _ n c hmem2 hnd2 hsub2

/-! ## Concrete host states for witnesses and counterexamples -/

/-- A Linux host on which every unguarded library query succeeds while
every external tool is absent, no sensors are exposed and the sysfs board
files are unreadable. -/
def hostBase : HostState where
  system := "Linux"
  release := "6.1.0"
  processor := "TestProc"
  machine := "x86_64"
  unameSystem := "Linux"
  unameNode := "node"
  unameRelease := "6.1.0"
  unameVersion := "#1 SMP"
  unameMachine := "x86_64"
  unameProcessor := "x86_64"
  now := "2026-01-01 00:00:00"
  regCpuName := .error "winreg missing"
  cpuCountPhysical := .ok (some 4)
  cpuCountLogical := .ok (some 8)
  cpuFreq := .ok none
  cpuPercents := .ok []
  cpuPercentTotal := .ok 0
  virtualMemory := .ok ⟨0, 0, 0, 0, 0⟩
  swapMemory := .ok ⟨0, 0, 0, 0⟩
  diskPartitions := .ok []
  diskIo := .ok none
  netIfAddrs := .ok []
  netIo := .ok ⟨0, 0⟩
  bootTime := .ok 1700000000
  sensorsTemperatures := .ok []
  sensorsBattery := .error "no battery API"
  wmicCpu := .error "wmic missing"
  nvidiaSmiNames := .error "nvidia-smi missing"
  nvidiaSmiFull := .error "nvidia-smi missing"
  wmicVideo := .error "wmic missing"
  wmicMemoryChip := .error "wmic missing"
  wmicDiskDrive := .error "wmic missing"
  psVideoNames := ⟨.error "powershell missing", none⟩
  psPhysicalMemorySummary := ⟨.error "powershell missing", none⟩
  psPhysicalMemory := ⟨.error "powershell missing", none⟩
  psBaseBoardSummary := ⟨.error "powershell missing", none⟩
  psBaseBoard := ⟨.error "powershell missing", none⟩
  psBios := ⟨.error "powershell missing", none⟩
  psDiskDrive := ⟨.error "powershell missing", none⟩
  psThermal := ⟨.error "powershell missing", none⟩
  sysBoardVendor := .error "Permission denied"
  sysBoardName := .error "Permission denied"
  sysBoardVersion := .error "Permission denied"

/-! ## Claim C3 -/

/-- **C3**: whenever the worker reaches the Done transition
(`scan_complete`, i.e. `scan_results` succeeded), every one of the nine
declared slots holds non-empty text: the status is "Scan complete!" and
each tab name looks up to some non-empty content. -/
theorem scan_done_slots_nonempty (g : GUI) (st : HostState)
    (hkeys : g.tabs.map Prod.fst = tabNames)
    (hok : isOkE (scan_results st) = true) :
    (applyScan (start_scan g) st).status = "Scan complete!" ∧
    ∀ n ∈ tabNames, ∃ c, List.lookup n (applyScan (start_scan g) st).tabs = some c ∧
      c ≠ "" := by
  obtain ⟨l, hl⟩ := isOkE_ok hok
  obtain ⟨os_info, cpu_info, memory_info, storage_info, network_info, comp, sm,
    hos, hcpu, hmem, hsto, hnet, hcomp, hsm, hleq⟩ := scan_results_ok_elim hl
  subst hleq
  have happ := applyScan_ok (g := start_scan g) hl
  refine ⟨happ.1, ?_⟩
  intro n hn
  rw [happ.2]
  have hk0 : (start_scan g).tabs.map Prod.fst = tabNames := by
    rw [start_scan_keys]
    exact hkeys
  have hlk : ([("Summary", sm), ("All Components", comp), ("CPU", cpu_info),
      ("Memory", memory_info), ("GPU", get_gpu_info st), ("Storage", storage_info),
      ("Motherboard", get_motherboard_info st), ("Network", network_info),
      ("OS", os_info)].map Prod.fst) = tabNames := rfl
  have hnd : (([("Summary", sm), ("All Components", comp), ("CPU", cpu_info),
      ("Memory", memory_info), ("GPU", get_gpu_info st), ("Storage", storage_info),
      ("Motherboard", get_motherboard_info st), ("Network", network_info),
      ("OS", os_info)]).map Prod.fst).Nodup := by
    rw [hlk]
    decide
  have hsub : ∀ m, m ∈ ([("Summary", sm), ("All Components", comp), ("CPU", cpu_info),
      ("Memory", memory_info), ("GPU", get_gpu_info st), ("Storage", storage_info),
      ("Motherboard", get_motherboard_info st), ("Network", network_info),
      ("OS", os_info)]).map Prod.fst → m ∈ (start_scan g).tabs.map Prod.fst := by
    intro m hm
    rw [hk0]
    rw [hlk] at hm
    exact hm
  simp only [tabNames] at hn
  fin_cases hn
  · exact ⟨sm, lookup_foldl_mem _ _ _ _ (by simp) hnd hsub, scanSummary_ok_ne hsm⟩
  · exact ⟨comp, lookup_foldl_mem _ _ _ _ (by simp) hnd hsub,
      get_components_summary_ok_ne hcomp⟩
  · exact ⟨cpu_info, lookup_foldl_mem _ _ _ _ (by simp) hnd hsub, get_cpu_info_ok_ne hcpu⟩
  · exact ⟨memory_info, lookup_foldl_mem _ _ _ _ (by simp) hnd hsub,
      get_memory_info_ok_ne hmem⟩
  · exact ⟨get_gpu_info st, lookup_foldl_mem _ _ _ _ (by simp) hnd hsub,
      get_gpu_info_ne st⟩
  · exact ⟨storage_info, lookup_foldl_mem _ _ _ _ (by simp) hnd hsub,
      get_disk_info_ok_ne hsto⟩
  · exact ⟨get_motherboard_info st, lookup_foldl_mem _ _ _ _ (by simp) hnd hsub,
      get_motherboard_info_ne st⟩
  · exact ⟨network_info, lookup_foldl_mem _ _ _ _ (by simp) hnd hsub,
      get_network_info_ok_ne hnet⟩
  · exact ⟨os_info, lookup_foldl_mem _ _ _ _ (by simp) hnd hsub, get_os_info_ok_ne hos⟩

/-- Witness for `scan_done_slots_nonempty` on the concrete host
`hostBase` starting from the initial GUI. -/
theorem scan_done_slots_nonempty_witness :
    (initGUI.tabs.map Prod.fst = tabNames ∧ isOkE (scan_results hostBase) = true) ∧
    ((applyScan (start_scan initGUI) hostBase).status = "Scan complete!" ∧
     ∀ n ∈ tabNames, ∃ c,
       List.lookup n (applyScan (start_scan initGUI) hostBase).tabs = some c ∧
       c ≠ "") :=
  ⟨⟨rfl, rfl⟩, scan_done_slots_nonempty initGUI hostBase rfl rfl⟩

/-! ## Claim C9 -/

lemma runEvents_snoc (evs : List Event) (e : Event) :
    runEvents (evs ++ [e]) = step (runEvents evs) e := by
  simp [runEvents, List.foldl_append]

lemma applyScan_scanning (g : GUI) (st : HostState) :
    (applyScan g st).scanning = false := by
  unfold applyScan
  split <;> rfl

lemma export_to_text_flags (g : GUI) (ts : String) (w : Except String Unit) :
    ((export_to_text g ts w).1).scanning = g.scanning ∧
    ((export_to_text g ts w).1).scanEnabled = g.scanEnabled := by
  unfold export_to_text
  cases w <;> exact ⟨rfl, rfl⟩

/-- The trigger invariant: in every reachable state, a running session
implies the scan button is disabled. -/
lemma scanning_disabled_inv (evs : List Event) :
    (runEvents evs).scanning = true → (runEvents evs).scanEnabled = false := by
  induction evs using List.reverseRecOn with
  | nil =>
    intro h
    simp [runEvents, initGUI] at h
  | append_singleton evs e ih =>
    rw [runEvents_snoc]
    cases e with
    | pressScan =>
      cases hen : (runEvents evs).scanEnabled with
      | true =>
        intro _
        simp [step, hen, start_scan]
      | false =>
        intro h
        simp only [step, hen, Bool.false_eq_true, if_false] at h ⊢
    | workerDone st =>
      cases hsc : (runEvents evs).scanning with
      | false =>
        intro h
        simp only [step, hsc, Bool.false_eq_true, if_false] at h ⊢
      | true =>
        intro h
        simp only [step, hsc, if_true] at h
        rw [applyScan_scanning] at h
        exact absurd h (by simp)
    | pressExport ts w =>
      intro h
      rw [step] at h ⊢
      rw [(export_to_text_flags _ ts w).1] at h
      rw [(export_to_text_flags _ ts w).2]
      exact ih h

/-- **C9**: while a session is Running the trigger is disabled, so a scan
request in any reachable Running state is a no-op and starts no second
session; the trigger is only re-enabled by the Done/Failed transition. -/
theorem scan_running_noop (evs : List Event)
    (hrun : (runEvents evs).scanning = true) :
    (runEvents evs).scanEnabled = false ∧
    step (runEvents evs) .pressScan = runEvents evs := by
  have hdis := scanning_disabled_inv evs hrun
  refine ⟨hdis, ?_⟩
  simp [step, hdis]

/-- Witness for `scan_running_noop` right after a scan request. -/
theorem scan_running_noop_witness :
    (runEvents [Event.pressScan]).scanning = true ∧
    ((runEvents [Event.pressScan]).scanEnabled = false ∧
     step (runEvents [Event.pressScan]) .pressScan = runEvents [Event.pressScan]) :=
  ⟨rfl, scan_running_noop [Event.pressScan] rfl⟩

/-! ## Claim C10 -/

/-- **C10**: calling `update_tab` with a name that is not one of the nine
declared slot names leaves every slot unchanged — a silent no-op, not an
error and not the creation of a new slot. -/
theorem update_tab_unknown_noop (tabs : List (String × String)) (name content : String)
    (hkeys : tabs.map Prod.fst = tabNames) (hname : name ∉ tabNames) :
    update_tab tabs name content = tabs := by
  have hc : tabNames.contains name = false := by
    cases hcc : tabNames.contains name with
    | false => rfl
    | true => exact absurd (by simpa [List.contains, List.elem_iff] using hcc) hname
  unfold update_tab
  rw [hkeys, hc]
  simp

/-- Witness for `update_tab_unknown_noop` at the unknown name
"Temperature". -/
theorem update_tab_unknown_noop_witness :
    (initGUI.tabs.map Prod.fst = tabNames ∧ "Temperature" ∉ tabNames) ∧
    update_tab initGUI.tabs "Temperature" "x" = initGUI.tabs :=
  ⟨⟨rfl, by decide⟩, update_tab_unknown_noop _ _ _ rfl (by decide)⟩

/-! ## Claim C8 -/

/-- **C8**: when the file write raises, the status line carries the error
message verbatim (appended to "Export failed: "), and export never mutates
any slot's content, on failure or success. -/
theorem export_failure_status_frame (g : GUI) (ts e : String) :
    ((export_to_text g ts (.error e)).1).status = "Export failed: " ++ e ∧
    ((export_to_text g ts (.error e)).1).tabs = g.tabs ∧
    ∀ w : Except String Unit, ((export_to_text g ts w).1).tabs = g.tabs := by
  refine ⟨rfl, rfl, fun w => ?_⟩
  cases w <;> rfl

/-! ## Claims C4 and C5: export format and round trip -/

lemma exportText_go (l : List (String × String)) (acc : String) :
    l.foldl (fun a p => a ++ exportSection p) acc = acc ++ exportText l := by
  induction l generalizing acc with
  | nil =>
    apply String.ext
    simp [exportText, String.data_append]
  | cons p ps ih =>
    show List.foldl _ (acc ++ exportSection p) ps = _
    rw [ih]
    have h2 : exportText (p :: ps) = "" ++ exportSection p ++ exportText ps := by
      show List.foldl _ ("" ++ exportSection p) ps = _
      rw [ih]
    rw [h2]
    apply String.ext
    simp [String.data_append]

lemma exportText_cons (p : String × String) (l : List (String × String)) :
    exportText (p :: l) = exportSection p ++ exportText l := by
  show List.foldl _ ("" ++ exportSection p) l = _
  rw [exportText_go]
  apply String.ext
  simp [String.data_append]

lemma exportText_append (l1 l2 : List (String × String)) :
    exportText (l1 ++ l2) = exportText l1 ++ exportText l2 := by
  show List.foldl _ "" (l1 ++ l2) = _
  rw [List.foldl_append]
  show List.foldl _ (exportText l1) l2 = _
  rw [exportText_go]

/-- **C4** (counterexample): the section written for the slot labelled
"Summary" does not contain the label itself — the header is the label
uppercased. -/
theorem export_label_cex :
    strContains (exportSection ("Summary", "")) "Summary" = false ∧
    strContains (exportSection ("Summary", "")) "SUMMARY" = true := by
  exact ⟨by decide, by decide⟩

/-- **C4** (amended): on success the export writes exactly the
concatenation of the current slots' sections; for a slot set with the nine
declared labels in declaration order the file is one section per slot, in
order, each section being the slot's label uppercased between separator
rules followed by the slot's exact current text (plus the widget's
trailing newline and a blank line). -/
theorem export_nine_sections (c1 c2 c3 c4 c5 c6 c7 c8 c9 : String) :
    (∀ (g : GUI) (ts : String),
      (export_to_text g ts (.ok ())).2 = some (exportText g.tabs)) ∧
    exportText [("Summary", c1), ("All Components", c2), ("CPU", c3), ("Memory", c4),
      ("GPU", c5), ("Storage", c6), ("Motherboard", c7), ("Network", c8), ("OS", c9)] =
    "\n" ++ sep60 ++ "\n" ++ "SUMMARY" ++ "\n" ++ sep60 ++ "\n\n" ++ c1 ++ "\n" ++ "\n"
    ++ ("\n" ++ sep60 ++ "\n" ++ "ALL COMPONENTS" ++ "\n" ++ sep60 ++ "\n\n" ++ c2
      ++ "\n" ++ "\n")
    ++ ("\n" ++ sep60 ++ "\n" ++ "CPU" ++ "\n" ++ sep60 ++ "\n\n" ++ c3 ++ "\n" ++ "\n")
    ++ ("\n" ++ sep60 ++ "\n" ++ "MEMORY" ++ "\n" ++ sep60 ++ "\n\n" ++ c4 ++ "\n" ++ "\n")
    ++ ("\n" ++ sep60 ++ "\n" ++ "GPU" ++ "\n" ++ sep60 ++ "\n\n" ++ c5 ++ "\n" ++ "\n")
    ++ ("\n" ++ sep60 ++ "\n" ++ "STORAGE" ++ "\n" ++ sep60 ++ "\n\n" ++ c6 ++ "\n" ++ "\n")
    ++ ("\n" ++ sep60 ++ "\n" ++ "MOTHERBOARD" ++ "\n" ++ sep60 ++ "\n\n" ++ c7
      ++ "\n" ++ "\n")
    ++ ("\n" ++ sep60 ++ "\n" ++ "NETWORK" ++ "\n" ++ sep60 ++ "\n\n" ++ c8 ++ "\n" ++ "\n")
    ++ ("\n" ++ sep60 ++ "\n" ++ "OS" ++ "\n" ++ sep60 ++ "\n\n" ++ c9 ++ "\n" ++ "\n") := by
  refine ⟨fun g ts => rfl, ?_⟩
  rw [exportText_cons, exportText_cons, exportText_cons, exportText_cons, exportText_cons,
    exportText_cons, exportText_cons, exportText_cons, exportText_cons]
  have u1 : strUpper "Summary" = "SUMMARY" := rfl
  have u2 : strUpper "All Components" = "ALL COMPONENTS" := rfl
  have u3 : strUpper "Memory" = "MEMORY" := rfl
  have u4 : strUpper "Storage" = "STORAGE" := rfl
  have u5 : strUpper "Motherboard" = "MOTHERBOARD" := rfl
  have u6 : strUpper "Network" = "NETWORK" := rfl
  apply String.ext
  simp [exportSection, widgetGet, u1, u2, u3, u4, u5, u6, strUpper, exportText,
    String.data_append, List.append_assoc]

/-- **C5**: the bytes the export writes contain, for every slot, that
slot's text content byte-for-byte inside its own section: the file
decomposes as (sections of the earlier slots) ++ (this slot's header) ++
content ++ (newlines and the later sections). -/
theorem export_roundtrip (tabs : List (String × String)) (i : ℕ) (h : i < tabs.length) :
    ∃ pre suf, exportText tabs = pre ++ (tabs.get ⟨i, h⟩).2 ++ suf ∧
      pre = exportText (tabs.take i) ++
        ("\n" ++ sep60 ++ "\n" ++ strUpper (tabs.get ⟨i, h⟩).1 ++ "\n" ++ sep60
          ++ "\n\n") ∧
      suf = "\n" ++ "\n" ++ exportText (tabs.drop (i + 1)) := by
  refine ⟨_, _, ?_, rfl, rfl⟩
  have hsplit : tabs.take i ++ tabs.get ⟨i, h⟩ :: tabs.drop (i + 1) = tabs := by
    rw [List.get_cons_drop, List.take_append_drop]
  conv_lhs => rw [← hsplit]
  rw [exportText_append, exportText_cons]
  apply String.ext
  simp [exportSection, widgetGet, String.data_append, List.append_assoc]

/-- Witness for `export_roundtrip` on a one-slot state. -/
theorem export_roundtrip_witness :
    (0 < ([("CPU", "cpu text")] : List (String × String)).length) ∧
    ∃ pre suf,
      exportText [("CPU", "cpu text")] =
        pre ++ (([("CPU", "cpu text")] : List (String × String)).get
          ⟨0, by decide⟩).2 ++ suf ∧
      pre = exportText (([("CPU", "cpu text")] : List (String × String)).take 0) ++
        ("\n" ++ sep60 ++ "\n"
          ++ strUpper (([("CPU", "cpu text")] : List (String × String)).get
            ⟨0, by decide⟩).1 ++ "\n" ++ sep60 ++ "\n\n") ∧
      suf = "\n" ++ "\n"
        ++ exportText (([("CPU", "cpu text")] : List (String × String)).drop 1) :=
  ⟨by decide, export_roundtrip [("CPU", "cpu text")] 0 (by decide)⟩

/-! ## Claim C2: error containment in the collectors -/

/-- Host on which `psutil.net_io_counters()` raises. -/
def hostNetIoFail : HostState :=
  { hostBase with netIo := .error "net_io_counters failed" }

/-- **C2** (counterexample): `get_network_info` does not catch a failure
of the unguarded `psutil.net_io_counters()` call — the exception escapes
the category function and aborts the whole scan (the session ends in
Failed, not Done). -/
theorem collector_raises_cex :
    get_network_info hostNetIoFail = .error "net_io_counters failed" ∧
    scan_results hostNetIoFail = .error "net_io_counters failed" := by
  exact ⟨rfl, rfl⟩

/-- **C2** (amended): the GPU and Motherboard collectors are total (every
sub-query is guarded) and each of the other collectors returns a
non-empty text block whenever its *unguarded* library queries succeed,
however the guarded sub-queries fail; a failure of an unguarded query
(e.g. `psutil.boot_time`, `psutil.net_io_counters`, `psutil.cpu_count`)
escapes the collector as an exception (see the counterexample). -/
theorem collectors_error_containment (st : HostState) :
    (get_gpu_info st ≠ "" ∧ get_motherboard_info st ≠ "") ∧
    (isOkE st.bootTime = true → ∃ s, get_os_info st = .ok s ∧ s ≠ "") ∧
    (isOkE st.cpuCountPhysical = true → isOkE st.cpuCountLogical = true →
      isOkE st.cpuFreq = true → isOkE st.cpuPercents = true →
      isOkE st.cpuPercentTotal = true → ∃ s, get_cpu_info st = .ok s ∧ s ≠ "") ∧
    (isOkE st.netIfAddrs = true → isOkE st.netIo = true →
      ∃ s, get_network_info st = .ok s ∧ s ≠ "") ∧
    (isOkE st.virtualMemory = true → isOkE st.swapMemory = true →
      ∃ s, get_memory_info st = .ok s ∧ s ≠ "") ∧
    (isOkE st.diskPartitions = true → isOkE st.diskIo = true →
      ∃ s, get_disk_info st = .ok s ∧ s ≠ "") := by
  refine ⟨⟨get_gpu_info_ne st, get_motherboard_info_ne st⟩, ?_, ?_, ?_, ?_, ?_⟩
  · intro h
    obtain ⟨s, hs⟩ := isOkE_ok (get_os_info_isOk h)
    exact ⟨s, hs, get_os_info_ok_ne hs⟩
  · intro k1 k2 k3 k4 k5
    obtain ⟨s, hs⟩ := isOkE_ok (get_cpu_info_isOk k1 k2 k3 k4 k5)
    exact ⟨s, hs, get_cpu_info_ok_ne hs⟩
  · intro k1 k2
    obtain ⟨s, hs⟩ := isOkE_ok (get_network_info_isOk k1 k2)
    exact ⟨s, hs, get_network_info_ok_ne hs⟩
  · intro k1 k2
    obtain ⟨s, hs⟩ := isOkE_ok (get_memory_info_isOk k1 k2)
    exact ⟨s, hs, get_memory_info_ok_ne hs⟩
  · intro k1 k2
    obtain ⟨s, hs⟩ := isOkE_ok (get_disk_info_isOk k1 k2)
    exact ⟨s, hs, get_disk_info_ok_ne hs⟩

/-- Witness for `collectors_error_containment` on `hostBase` (every
external tool failing, unguarded queries succeeding). -/
theorem collectors_error_containment_witness :
    (∃ s, get_os_info hostBase = .ok s ∧ s ≠ "") ∧
    (∃ s, get_network_info hostBase = .ok s ∧ s ≠ "") :=
  ⟨(collectors_error_containment hostBase).2.1 rfl,
   (collectors_error_containment hostBase).2.2.2.1 rfl rfl⟩

/-! ## Claim C6: the CPU model-name fallback chain -/

/-- Windows host where the registry query raised and `wmic` ran but
exited nonzero. -/
def hostWmicNonzero : HostState :=
  { hostBase with
    system := "Windows"
    regCpuName := .error "registry read failed"
    wmicCpu := .ok ⟨1, ""⟩
    processor := "GenuineProcessor" }

/-- **C6** (counterexample): with the registry step failed and the `wmic`
step failed by exiting nonzero, the claimed next step (generic processor
string) does NOT run — the name remains the placeholder "Unknown CPU",
so "each later step runs if and only if the previous step failed" is
false. -/
theorem cpu_name_fallback_cex :
    hostWmicNonzero.regCpuName = .error "registry read failed" ∧
    hostWmicNonzero.wmicCpu = .ok ⟨1, ""⟩ ∧
    cpuNameChain hostWmicNonzero = "Unknown CPU" ∧
    cpuNameChain hostWmicNonzero ≠ hostWmicNonzero.processor := by
  refine ⟨rfl, rfl, rfl, ?_⟩
  decide

/-- **C6** (amended): the chain is registry → `wmic` → generic processor
string, but the generic string is consulted only when the `wmic`
*invocation itself* raises; if `wmic` runs and exits nonzero, or exits 0
with fewer than two output lines, the name stays "Unknown CPU".  On
non-Windows hosts the generic string is used directly. -/
theorem cpu_name_chain_spec (st : HostState) :
    (st.system ≠ "Windows" → cpuNameChain st = st.processor) ∧
    (∀ n, st.system = "Windows" → st.regCpuName = .ok n →
      cpuNameChain st = n.trim) ∧
    (∀ e e2, st.system = "Windows" → st.regCpuName = .error e →
      st.wmicCpu = .error e2 → cpuNameChain st = st.processor) ∧
    (∀ e r, st.system = "Windows" → st.regCpuName = .error e → st.wmicCpu = .ok r →
      r.returncode = 0 → 1 < (r.stdout.trim.splitOn "\n").length →
      cpuNameChain st = (((r.stdout.trim.splitOn "\n").get? 1).getD "").trim) ∧
    (∀ e r, st.system = "Windows" → st.regCpuName = .error e → st.wmicCpu = .ok r →
      (r.returncode ≠ 0 ∨ (r.stdout.trim.splitOn "\n").length ≤ 1) →
      cpuNameChain st = "Unknown CPU") := by
  refine ⟨?_, ?_, ?_, ?_, ?_⟩
  · intro h
    simp [cpuNameChain, h]
  · intro n hsys hreg
    simp [cpuNameChain, hsys, hreg]
  · intro e e2 hsys hreg hw
    simp [cpuNameChain, hsys, hreg, hw]
  · intro e r hsys hreg hw hrc hlen
    simp [cpuNameChain, hsys, hreg, hw, hrc, hlen]
  · intro e r hsys hreg hw hfail
    rcases hfail with hrc | hlen
    · simp [cpuNameChain, hsys, hreg, hw, hrc]
    · have hnl : ¬ 1 < (r.stdout.trim.splitOn "\n").length := not_lt.2 hlen
      by_cases hrc : r.returncode = 0
      · simp [cpuNameChain, hsys, hreg, hw, hrc, hnl]
      · simp [cpuNameChain, hsys, hreg, hw, hrc]

/-- Witness for `cpu_name_chain_spec` on the concrete hosts. -/
theorem cpu_name_chain_spec_witness :
    cpuNameChain hostBase = hostBase.processor ∧
    cpuNameChain hostWmicNonzero = "Unknown CPU" :=
  ⟨(cpu_name_chain_spec hostBase).1 (by decide),
   (cpu_name_chain_spec hostWmicNonzero).2.2.2.2 "registry read failed" ⟨1, ""⟩
     rfl rfl rfl (Or.inl (by decide))⟩

/-! ## Claim C7: degraded-mode markers -/

set_option maxRecDepth 8192 in
/-- **C7** (counterexample): on the all-tools-failing Linux host, the GPU
category's marker is "No GPU information available" (not the claimed
"No GPU detected"), the motherboard marker is capital-U
"Unavailable (may need root)" (not "unavailable (may need root)"), and
the CPU block contains no "unavailable" marker at all. -/
theorem degraded_markers_cex :
    strContains (get_gpu_info hostBase) "No GPU detected" = false ∧
    strContains (get_gpu_info hostBase) "No GPU information available" = true ∧
    strContains (get_motherboard_info hostBase) "unavailable (may need root)" = false ∧
    strContains (get_motherboard_info hostBase) "Unavailable (may need root)" = true ∧
    strContainsE (get_cpu_info hostBase) "unavailable" = false := by
  refine ⟨by decide, by decide, by decide, by decide, by decide⟩

/-- **C7** (amended): when every external tool invocation fails, no
sensor is available and the sysfs board files are unreadable on a Linux
host, the GPU and Motherboard categories still return well-formed
non-empty blocks with the markers "No GPU information available" and
"Unavailable (may need root)", and the CPU category still returns a
well-formed non-empty block (with no "unavailable" marker of its own). -/
theorem degraded_markers (st : HostState)
    (hsys : st.system = "Linux")
    (hnv : isOkE st.nvidiaSmiFull = false)
    (hvendor : isOkE st.sysBoardVendor = false)
    (htemps : st.sensorsTemperatures = .ok [])
    (hbatt : isOkE st.sensorsBattery = false)
    (k1 : isOkE st.cpuCountPhysical = true) (k2 : isOkE st.cpuCountLogical = true)
    (k3 : isOkE st.cpuFreq = true) (k4 : isOkE st.cpuPercents = true)
    (k5 : isOkE st.cpuPercentTotal = true) :
    strContains (get_gpu_info st) "No GPU information available" = true ∧
    get_gpu_info st ≠ "" ∧
    strContains (get_motherboard_info st) "Unavailable (may need root)" = true ∧
    get_motherboard_info st ≠ "" ∧
    (∃ s, get_cpu_info st = .ok s ∧ s ≠ "") := by
  obtain ⟨e1, he1⟩ := isOkE_err hnv
  obtain ⟨e2, he2⟩ := isOkE_err hvendor
  obtain ⟨e3, he3⟩ := isOkE_err hbatt
  refine ⟨?_, get_gpu_info_ne st, ?_, get_motherboard_info_ne st, ?_⟩
  · simp [get_gpu_info, he1, hsys]
    decide
  · simp [get_motherboard_info, linuxBoardSection, tempsSection, winThermalSection,
      batterySection, hsys, he2, he3, htemps]
    decide
  · obtain ⟨s, hs⟩ := isOkE_ok (get_cpu_info_isOk k1 k2 k3 k4 k5)
    exact ⟨s, hs, get_cpu_info_ok_ne hs⟩

/-- Witness for `degraded_markers` on the concrete host `hostBase`. -/
theorem degraded_markers_witness :
    (hostBase.system = "Linux" ∧ isOkE hostBase.nvidiaSmiFull = false ∧
     isOkE hostBase.sysBoardVendor = false ∧
     hostBase.sensorsTemperatures = .ok [] ∧ isOkE hostBase.sensorsBattery = false) ∧
    (strContains (get_gpu_info hostBase) "No GPU information available" = true ∧
     get_gpu_info hostBase ≠ "" ∧
     strContains (get_motherboard_info hostBase) "Unavailable (may need root)" = true ∧
     get_motherboard_info hostBase ≠ "" ∧
     (∃ s, get_cpu_info hostBase = .ok s ∧ s ≠ "")) :=
  ⟨⟨rfl, rfl, rfl, rfl, rfl⟩,
   degraded_markers hostBase rfl rfl rfl rfl rfl rfl rfl rfl rfl rfl⟩

end SysInfoTool
